import Mathlib

/-!
Verification development for the mmd-workers repository.

This file shallowly embeds the two core subsystems:
 * the events worker (`src/events-worker/src/index.js`): job event application
   (`POST /v1/job/event`) with event-name normalization, idempotency cache,
   status resolution, the `work_started` hard payment gate, persistence and
   side-effect dispatch;
 * the payments worker (`src/payments-worker/src/index.merged.js`): payment
   intent issuance (`POST /v1/pay/verify`) and the paid-notification protocol
   (`POST /v1/payments/notify`) with the membership/points ledgers;
 * the deposit amount helpers of the sessions intents worker
   (`src/unnamed/part_000`).

External collaborators (Airtable record store, KV store, telegram worker,
realtime worker) are modeled as explicit state inside `World` / `PayWorld`
plus outcome oracles for the two fallible notification calls.  JSON bodies
are modeled as structures whose fields are the values the JS handlers read;
`events_json` serialization is modeled as the identity on the parsed list.
Machine numbers are modeled as `Rat` (the JS arithmetic involved stays exact
on these values); `NaN`/`Infinity` pathologies of JS `Number` are outside the
model and excluded by explicit positivity hypotheses where relevant.
-/

/-- JS-style character lowercasing: `String.prototype.toLowerCase` restricted
to ASCII (all inputs relevant here are ASCII letters or caseless Thai). -/
def lowerChar (c : Char) : Char :=
  if 'A' ≤ c ∧ c ≤ 'Z' then Char.ofNat (c.toNat + 32) else c

/-- `toLowerCase` on strings (ASCII case folding). -/
def asciiLower (s : String) : String := String.mk (s.data.map lowerChar)

/-- Does `l` start with `pat`? -/
def startsWithL : List Char → List Char → Bool
  | _, [] => true
  | [], _ :: _ => false
  | a :: as, b :: bs => a == b && startsWithL as bs

/-- Does `l` contain `pat` as a contiguous subsequence?
Models `String.prototype.includes`. -/
def containsSeq (pat : List Char) : List Char → Bool
  | [] => startsWithL [] pat
  | c :: t => startsWithL (c :: t) pat || containsSeq pat t

/-- `s.includes(pat)` from JS. -/
def sIncludes (s pat : String) : Bool := containsSeq pat.data s.data

/-- Trim leading and trailing whitespace from a char list. -/
def trimL (l : List Char) : List Char :=
  ((l.dropWhile Char.isWhitespace).reverse.dropWhile Char.isWhitespace).reverse

/-- JS `String(v ?? "").trim()` applied to a string value — the `str` helper
of the workers' source. -/
def jsTrim (s : String) : String := String.mk (trimL s.data)

/-- JS `a || b` for strings: empty string is falsy. -/
def jsOr (a b : String) : String := if a = "" then b else a

/-- Collapse every maximal run of whitespace into a single underscore,
modeling `replace(/\s+/g, "_")`.  The boolean records whether the previous
character was whitespace. -/
def collapseGo : Bool → List Char → List Char
  | _, [] => []
  | prevWs, c :: t =>
    if c.isWhitespace then
      if prevWs then collapseGo true t else '_' :: collapseGo true t
    else c :: collapseGo false t

/-- `replace(/\s+/g, "_")` on a string. -/
def collapseWs (s : String) : String := String.mk (collapseGo false s.data)

/-- `normalizeEventName` from `src/events-worker/src/index.js` lines 58–70:
lowercases and trims, special-cases the joint "T minus 15" / "live chat"
signals (in several spellings, including two Thai spellings of "chat") into
the canonical token, and otherwise collapses internal whitespace into
underscores. -/
def normalizeEventName (input : String) : String :=
  let raw := jsTrim input
  let lower := asciiLower raw
  let hasT15 := sIncludes lower "t-15" || sIncludes lower "t15" || sIncludes lower "t 15"
  let hasLiveChat :=
    sIncludes lower "live chat" || sIncludes lower "livechat" || sIncludes lower "live" ||
    sIncludes raw "แชท" || sIncludes raw "แชต"
  if hasT15 && hasLiveChat then "t-15min_open_live_chat"
  else collapseWs (jsTrim lower)

example : normalizeEventName "T-15 Live Chat" = "t-15min_open_live_chat" := by decide
example : normalizeEventName "t15 livechat" = "t-15min_open_live_chat" := by decide
example : normalizeEventName "T-15min เปิด live chat" = "t-15min_open_live_chat" := by decide
example : normalizeEventName "Arrived" = "arrived" := by decide
example : normalizeEventName "  Work  Started " = "work_started" := by decide

/-! ## Events worker: data model (`src/events-worker/src/index.js`) -/

/-- The canonical ordering of dispatch states, `DISPATCH_STATES`
(lines 193–208 of the events worker). -/
def DISPATCH_STATES : List String :=
  ["confirmed", "reminder", "en_route", "nearby", "arrived", "met_customer",
   "final_payment_pending", "final_payment_confirmed", "work_started",
   "work_finished", "separated", "review", "payout", "closed"]

/-- One entry of a job's event log (`events_json`).  `actor` is the `by`
field of the source (a Lean keyword). -/
structure EventRec where
  ts : String
  event : String
  event_raw : Option String
  actor : String
  data : Option String
deriving DecidableEq, Repr

/-- The fields of a job record in the record store.  `events` is the parsed
content of `events_json`; serialization is modeled as the identity. -/
structure JobFields where
  job_id : String
  cid : String
  session_id : String
  model_code : String
  schedule_start_at : String
  meeting_point_text : String
  city : String
  status : String
  last_update_at : String
  events : List EventRec
deriving DecidableEq, Repr

/-- An Airtable record: opaque record id plus fields. -/
structure JobRec where
  id : String
  fields : JobFields
deriving DecidableEq, Repr

/-- The payload handed to the telegram worker, `buildDispatchPayload`
(lines 242–257).  The `flow` field is always `"dispatch"` and is left
implicit. -/
structure TgPayload where
  event : String
  status : String
  job_id : String
  cid : String
  session_id : String
  model_code : String
  schedule_start_at : String
  meeting_point_text : String
  city : String
  ts : String
  action : Option String
  note : Option String
deriving DecidableEq, Repr

/-- Abstract outcome of one `tgInternalSend` call.  Every code path of
`tgInternalSend` (lines 222–240) returns an object — a skip, a failure
report or a success — and never throws; `ok` is that object's `ok` flag and
`info` abstracts the remaining keys. -/
structure TgResult where
  ok : Bool
  info : String
deriving DecidableEq, Repr

/-- An `HttpError` as thrown by `rtRoomOpen` (status + error code). -/
structure HErr where
  status : Nat
  error : String
deriving DecidableEq, Repr

/-- The payload of the realtime-room-open call (lines 427–435). -/
structure RtPayload where
  job_id : String
  cid : String
  session_id : String
  model_code : String
  schedule_start_at : String
  meeting_point_text : String
  city : String
deriving DecidableEq, Repr

/-- One entry of the `side_effects` array: `{type, ...tgResult}`. -/
structure SideEffect where
  type : String
  res : TgResult
deriving DecidableEq, Repr

/-- The `result` object of a successful `/v1/job/event` call (line 465):
`{ ok:true, job_id, status, updated_at, airtable, rt, side_effects }`.
`rt` holds the (serialized) response of the realtime worker when the call
was triggered. -/
structure EvResult where
  job_id : String
  status : String
  updated_at : String
  airtable : Option String
  rt : Option String
  side_effects : List SideEffect
deriving DecidableEq, Repr

/-- What `idemPut` stores under an idempotency key: `{ok:true, result}`. -/
structure IdemVal where
  ok : Bool
  result : EvResult
deriving DecidableEq, Repr

/-- The response of the `/v1/job/event` route, by construction site:
422 missing fields, 200 idempotent replay (`{ok, idempotent:true, result}`),
404, 409 gate conflict, 200 success (the result object itself), or the
propagated `HttpError` thrown by `rtRoomOpen` (caught by the outer handler
and returned with its own status).  `authFail` is the 401 of
`requireConfirmKey`. -/
inductive EvResp where
  | authFail
  | missingRequired
  | idemHit (r : EvResult)
  | notFound
  | gateConflict
  | success (r : EvResult)
  | rtError (e : HErr)
deriving DecidableEq, Repr

/-- The world the events worker acts on: the jobs table, the idempotency KV
(present only when the `EVENTS_IDEMPOTENCY_KV` binding exists), and outcome
oracles for the two outbound notification calls.  `tgOracle` is total
because `tgInternalSend` never throws; `rtOracle` may fail with an
`HttpError` because `rtRoomOpen` throws on any failure. -/
structure World where
  jobs : List JobRec
  kv : List (String × IdemVal)
  hasKv : Bool
  tgOracle : TgPayload → TgResult
  rtOracle : RtPayload → Except HErr String

/-- Handler output: response plus the updated world. -/
structure EvOut where
  resp : EvResp
  world : World

/-- The JSON body of a `/v1/job/event` request.  Absent string fields are
the empty string (JS `str` maps `undefined` to `""`). -/
structure EventReq where
  job_id : String
  event : String
  status : String
  actor : String
  data : Option String
  idempotency_key : String
deriving DecidableEq, Repr

/-! ## Events worker: operations -/

/-- `idemGet` (lines 177–182): KV lookup under `idem:` + key, `null` when
the binding is absent. -/
def idemGet (w : World) (key : String) : Option IdemVal :=
  if w.hasKv then (w.kv.find? (fun p => p.1 == "idem:" ++ key)).map (·.2) else none

/-- `idemPut` (lines 183–188): KV write under `idem:` + key (no-op when the
binding is absent).  The TTL is not modeled; entries persist for the
window considered. -/
def idemPut (w : World) (key : String) (v : IdemVal) : World :=
  if w.hasKv then { w with kv := ("idem:" ++ key, v) :: w.kv } else w

/-- `findJobByJobId` (lines 162–166): first record whose `job_id` field
matches. -/
def findJobByJobId (w : World) (jid : String) : Option JobRec :=
  w.jobs.find? (fun r => r.fields.job_id == jid)

/-- The Airtable PATCH of the job record (lines 409–421), modeled as the
pure update of the matching record. -/
def updateJobRecord (w : World) (recId : String) (f : JobFields) : World :=
  { w with jobs := w.jobs.map (fun r => if r.id == recId then { r with fields := f } else r) }

/-- `hasFinalPaymentConfirmed` (lines 210–212). -/
def hasFinalPaymentConfirmed (events : List EventRec) : Bool :=
  events.any (fun e => e.event == "final_payment_confirmed")

/-- Status resolution of `/v1/job/event` (lines 396–400):
`str(body.status) || (DISPATCH_STATES.includes(event) ? event
: (str(rec.fields?.status) || "confirmed"))`. -/
def resolveCandidateStatus (bodyStatus event prevStatus : String) : String :=
  let statusFromBody := jsTrim bodyStatus
  let statusAuto :=
    if DISPATCH_STATES.contains event then event else jsOr (jsTrim prevStatus) "confirmed"
  jsOr statusFromBody statusAuto

/-- The event appended to the log (line 394):
`{ts, event, event_raw: event_raw || null, by: str(body.by) || "system",
data: body.data || null}`. -/
def newEventOf (body : EventReq) (now : String) : EventRec :=
  { ts := now
    event := normalizeEventName (jsTrim body.event)
    event_raw := if jsTrim body.event = "" then none else some (jsTrim body.event)
    actor := jsOr (jsTrim body.actor) "system"
    data := body.data }

/-- The updated event sequence after the push (line 394). -/
def updatedEventsOf (rec : JobRec) (body : EventReq) (now : String) : List EventRec :=
  rec.fields.events ++ [newEventOf body now]

/-- The candidate status of this call, as the handler computes it. -/
def statusOf (rec : JobRec) (body : EventReq) : String :=
  resolveCandidateStatus body.status (normalizeEventName (jsTrim body.event)) rec.fields.status

/-- `buildDispatchPayload` (lines 242–257): job fields pass through `str`. -/
def buildDispatchPayload (event status : String) (j : JobFields) (ts : String)
    (action note : Option String) : TgPayload :=
  { event, status
    job_id := jsTrim j.job_id
    cid := jsTrim j.cid
    session_id := jsTrim j.session_id
    model_code := jsTrim j.model_code
    schedule_start_at := jsTrim j.schedule_start_at
    meeting_point_text := jsTrim j.meeting_point_text
    city := jsTrim j.city
    ts, action, note }

/-- The realtime payload built at lines 427–435. -/
def mkRtPayload (job_id : String) (j : JobFields) : RtPayload :=
  { job_id
    cid := jsTrim j.cid
    session_id := jsTrim j.session_id
    model_code := jsTrim j.model_code
    schedule_start_at := jsTrim j.schedule_start_at
    meeting_point_text := jsTrim j.meeting_point_text
    city := jsTrim j.city }

/-- The telegram side effects dispatched at lines 440–463, in order: the
generic dispatch notification always, then `meeting_point_and_qr` for
`nearby`/`arrived`, `review_tip` for `separated`, `payout_notice` for
`review`/`payout`.  (Each JS call stamps its own `nowIso()`; time is frozen
to the request timestamp in the model.) -/
def dispatchPayloads (event status : String) (j : JobFields) (ts : String) :
    List (String × TgPayload) :=
  [("telegram_notify", buildDispatchPayload event status j ts none none)]
  ++ (if event == "nearby" || event == "arrived" then
        [("meeting_point_and_qr",
          buildDispatchPayload event status j ts (some "meeting_point_select_and_balance_qr") none)]
      else [])
  ++ (if event == "separated" then
        [("review_tip", buildDispatchPayload event status j ts (some "request_review_and_tip") none)]
      else [])
  ++ (if event == "review" || event == "payout" then
        [("payout_notice", buildDispatchPayload event status j ts (some "payout_notice")
            (some "payout target: within 30 minutes (handled by Per)"))]
      else [])

/-- The idempotency check at lines 381–385: a stored value replays only when
a key was supplied and the stored object has `ok` set. -/
def evIdemLookup (w : World) (body : EventReq) : Option EvResult :=
  let idemKey := jsTrim body.idempotency_key
  if idemKey ≠ "" then
    match idemGet w idemKey with
    | some prev => if prev.ok then some prev.result else none
    | none => none
  else none

/-- The realtime-room-open step (lines 424–437): triggered exactly when the
normalized event is the t-15 token; its failure is an uncaught throw. -/
def rtAttempt (w : World) (rec : JobRec) (body : EventReq) : Except HErr (Option String) :=
  if normalizeEventName (jsTrim body.event) == "t-15min_open_live_chat" then
    (w.rtOracle (mkRtPayload (jsTrim body.job_id) rec.fields)).map some
  else .ok none

/-- The job fields persisted by the PATCH of lines 409–421:
`{status, last_update_at, events_json}` over the fetched record. -/
def newJobFields (rec : JobRec) (body : EventReq) (now : String) : JobFields :=
  { rec.fields with
    status := statusOf rec body, last_update_at := now,
    events := updatedEventsOf rec body now }

/-- The `result` object of line 465 for a given realtime outcome: the
telegram side effects are the captured oracle outcomes of the dispatched
payloads, in dispatch order. -/
def evResultOf (w : World) (rec : JobRec) (body : EventReq) (now : String)
    (rtv : Option String) : EvResult :=
  { job_id := jsTrim body.job_id
    status := statusOf rec body
    updated_at := now
    airtable := some rec.id
    rt := rtv
    side_effects := (dispatchPayloads (normalizeEventName (jsTrim body.event))
      (statusOf rec body) rec.fields now).map
      (fun tp => ({ type := tp.1, res := w.tgOracle tp.2 } : SideEffect)) }

/-- The tail of `/v1/job/event` once the gate has passed (lines 408–469):
persist `{status, last_update_at, events_json}` via PATCH, run the realtime
call (whose failure propagates as an `HttpError` after persistence), dispatch
the telegram side effects (each captured, never thrown), store the result
under the idempotency key if one was supplied, and answer 200 with the
result. -/
def jobEventAfterGate (w : World) (now : String) (body : EventReq) (rec : JobRec) : EvOut :=
  let w1 := updateJobRecord w rec.id (newJobFields rec body now)
  match rtAttempt w rec body with
  | .error e => ⟨.rtError e, w1⟩
  | .ok rtv =>
    let result := evResultOf w rec body now rtv
    let idemKey := jsTrim body.idempotency_key
    ⟨.success result, if idemKey ≠ "" then idemPut w1 idemKey ⟨true, result⟩ else w1⟩

/-- `/v1/job/event` after the job lookup succeeded: the hard gate
(lines 402–406) rejects with 409 — before any persistence — whenever the
candidate status is `work_started` and the updated sequence holds no
`final_payment_confirmed` event. -/
def jobEventWithJob (w : World) (now : String) (body : EventReq) (rec : JobRec) : EvOut :=
  if statusOf rec body = "work_started"
      ∧ hasFinalPaymentConfirmed (updatedEventsOf rec body now) = false then
    ⟨.gateConflict, w⟩
  else jobEventAfterGate w now body rec

/-- The `/v1/job/event` route (lines 368–470).  `authOk` is the outcome of
`requireConfirmKey`; body JSON parsing is assumed to have succeeded. -/
def jobEvent (w : World) (now : String) (authOk : Bool) (body : EventReq) : EvOut :=
  if !authOk then ⟨.authFail, w⟩
  else if jsTrim body.job_id = "" ∨ normalizeEventName (jsTrim body.event) = "" then
    ⟨.missingRequired, w⟩
  else
    match evIdemLookup w body with
    | some r => ⟨.idemHit r, w⟩
    | none =>
      match findJobByJobId w (jsTrim body.job_id) with
      | none => ⟨.notFound, w⟩
      | some rec => jobEventWithJob w now body rec

/-! ## Events worker: response serialization

`json(...)` responds with `JSON.stringify(obj)` of the handed object.
The renderer below reproduces those bytes for the modeled responses
(`JSON.stringify` emits keys in insertion order; none of the strings involved
need escaping; the abstracted `rt` / side-effect details are rendered through
the same abstraction on both sides of any comparison made below). -/

/-- A JSON string literal (no escaping needed for the values modeled). -/
def qstr (s : String) : String := "\"" ++ s ++ "\""

def renderBool (b : Bool) : String := if b then "true" else "false"

def renderOptStr : Option String → String
  | none => "null"
  | some s => qstr s

def renderSideEffect (se : SideEffect) : String :=
  "\x7b" ++ qstr "type" ++ ":" ++ qstr se.type ++ "," ++ qstr "ok" ++ ":"
    ++ renderBool se.res.ok ++ "," ++ qstr "info" ++ ":" ++ qstr se.res.info ++ "\x7d"

def renderEvResult (r : EvResult) : String :=
  "\x7b" ++ qstr "ok" ++ ":true," ++ qstr "job_id" ++ ":" ++ qstr r.job_id ++ ","
    ++ qstr "status" ++ ":" ++ qstr r.status ++ ","
    ++ qstr "updated_at" ++ ":" ++ qstr r.updated_at ++ ","
    ++ qstr "airtable" ++ ":" ++ renderOptStr r.airtable ++ ","
    ++ qstr "rt" ++ ":" ++ renderOptStr r.rt ++ ","
    ++ qstr "side_effects" ++ ":["
    ++ String.intercalate "," (r.side_effects.map renderSideEffect) ++ "]\x7d"

/-- The response payload bytes of each `/v1/job/event` outcome: a fresh
success serializes the result object itself (line 469), an idempotent replay
serializes the wrapper `{ok:true, idempotent:true, result}` (line 384). -/
def renderResp : EvResp → String
  | .success r => renderEvResult r
  | .idemHit r =>
      "\x7b" ++ qstr "ok" ++ ":true," ++ qstr "idempotent" ++ ":true,"
        ++ qstr "result" ++ ":" ++ renderEvResult r ++ "\x7d"
  | .authFail => "\x7b" ++ qstr "ok" ++ ":false," ++ qstr "error" ++ ":"
      ++ qstr "confirm_key_required" ++ "\x7d"
  | .missingRequired => "\x7b" ++ qstr "ok" ++ ":false," ++ qstr "error" ++ ":"
      ++ qstr "missing_required" ++ "," ++ qstr "required" ++ ":["
      ++ qstr "job_id" ++ "," ++ qstr "event" ++ "]\x7d"
  | .notFound => "\x7b" ++ qstr "ok" ++ ":false," ++ qstr "error" ++ ":"
      ++ qstr "job_not_found" ++ "\x7d"
  | .gateConflict => "\x7b" ++ qstr "ok" ++ ":false," ++ qstr "error" ++ ":"
      ++ qstr "final_payment_required_before_work_started" ++ "\x7d"
  | .rtError e => "\x7b" ++ qstr "ok" ++ ":false," ++ qstr "error" ++ ":"
      ++ qstr e.error ++ "\x7d"

/-! ## Payments worker: data model (`src/payments-worker/src/index.merged.js`)

Airtable field names for the Payments/Sessions tables are env-configured
field IDs (`AT_PAYMENTS__*`, `AT_SESSIONS__*`); every read and write of such
a field is guarded in the source by the presence of the corresponding env
var.  `PayCfg` carries those presence flags plus the resolved numeric
`POINTS_RATE` and the (unmodeled, hence abstract) date arithmetic. -/

structure PayCfg where
  /-- `AT_PAYMENTS__PAYMENT_REF` set -/
  fRef : Bool
  /-- `AT_PAYMENTS__AMOUNT` set -/
  fAmount : Bool
  /-- `AT_PAYMENTS__PAYMENT_STATUS` set -/
  fStatus : Bool
  /-- `AT_PAYMENTS__PAYMENT_METHOD` set -/
  fMethod : Bool
  /-- `AT_PAYMENTS__PACKAGE_CODE` set -/
  fPkg : Bool
  /-- `AT_PAYMENTS__PAYMENT_INTENT_STATUS` set -/
  fIntentStatus : Bool
  /-- `AT_PAYMENTS__NOTES` set -/
  fNotes : Bool
  /-- `AT_PAYMENTS__PAYMENT_DATE` set -/
  fDate : Bool
  /-- `AT_PAYMENTS__VERIFICATION_STATUS` set -/
  fVerif : Bool
  /-- `AT_PAYMENTS__RECEIPT_PHOTO` set -/
  fReceipt : Bool
  /-- `AT_SESSIONS__PAYMENT_REF` set -/
  sRef : Bool
  /-- `AT_SESSIONS__PAYMENT_STATUS` set -/
  sStatus : Bool
  /-- `Number(env.POINTS_RATE || 100)` -/
  pointsRate : Rat
  /-- `dateOnlyIso(new Date(s))` -/
  dateOnly : String → String
  /-- `addDaysDateOnly` -/
  addDays : String → Int → String

/-- Fields of a Payments-table record (those the worker touches);
`none` = field absent on the record (or its env id unset when read). -/
structure PayFields where
  payment_ref : Option String := none
  amount : Option Rat := none
  payment_status : Option String := none
  payment_method : Option String := none
  package_code : Option String := none
  payment_intent_status : Option String := none
  notes : Option String := none
  payment_date : Option String := none
  verification_status : Option String := none
  receipt : Option (List String) := none
deriving DecidableEq, Repr

/-- Fields of a Sessions-table record (those the worker touches). -/
structure SessFields where
  session_id : String
  payment_ref : Option String := none
  payment_status : Option String := none
deriving DecidableEq, Repr

/-- Fields of a packages-table record. -/
structure PkgFields where
  code : String
  duration_days : Int := 0
  tier : String := ""
deriving DecidableEq, Repr

/-- A `member_packages` ledger entry as created by
`createMemberPackageLedgerIfEligible` (lines 278–297). -/
structure MlEntry where
  id : String := ""
  member_email : String
  package_code : String
  amount : Rat
  currency : String := "THB"
  status : String := "active"
  start_date : String
  end_date : String
  payment_ref : String
  provider : String
  ledger_type : String := "purchase"
  source : String
  note : String
  tier : Option String := none
deriving DecidableEq, Repr

/-- A `points_ledger` entry as created by `awardPointsIfEligible`
(lines 335–347). -/
structure PtEntry where
  id : String := ""
  payment_ref : String
  amount_thb : Rat
  points : Int
  rate_policy : String := "100THB=1PT"
  source : String
  note : String
  member_email : Option String := none
  session_id : Option String := none
deriving DecidableEq, Repr

/-- The payments worker's world: the `PAY_SESSIONS_KV` store and the four
Airtable tables it touches. -/
structure PayWorld where
  kv : List (String × String)
  payments : List (String × PayFields)
  sessions : List (String × SessFields)
  packages : List PkgFields
  memberLedger : List MlEntry
  pointsLedger : List PtEntry
deriving Repr

def kvGet (w : PayWorld) (k : String) : Option String :=
  (w.kv.find? (fun p => p.1 == k)).map (·.2)

def kvPut (w : PayWorld) (k v : String) : PayWorld :=
  { w with kv := (k, v) :: w.kv }

/-! ## Payments worker: stage helpers and ledger operations -/

/-- `normalizeStage` (lines 150–153): trim then lowercase. -/
def normalizeStage (s : String) : String := asciiLower (jsTrim s)

/-- `isMembershipStage` (lines 155–157). -/
def isMembershipStage (s : String) : Bool := normalizeStage s == "membership"

/-- `isServiceStage` (lines 159–162). -/
def isServiceStage (s : String) : Bool :=
  let t := normalizeStage s
  t == "deposit" || t == "final" || t == "tips"

/-- Case-insensitive `startsWithL` (regexes below carry the `/i` flag). -/
def startsWithCI : List Char → List Char → Bool
  | _, [] => true
  | [], _ :: _ => false
  | a :: as, b :: bs => lowerChar a == lowerChar b && startsWithCI as bs

/-- Take characters until one of `stops`. -/
def takeUntilStops (stops : List Char) : List Char → List Char
  | [] => []
  | c :: t => if stops.contains c then [] else c :: takeUntilStops stops t

/-- First non-empty capture of `/pat([^stops]+)/i` over the original
characters, resuming past empty captures as a backtracking regex engine
does. -/
def findCaptureCI (pat stops : List Char) : List Char → Option (List Char)
  | [] => none
  | c :: t =>
    if startsWithCI (c :: t) pat then
      let cap := takeUntilStops stops ((c :: t).drop pat.length)
      if cap.isEmpty then findCaptureCI pat stops t else some cap
    else findCaptureCI pat stops t

/-- `extractSessionIdFromNotes` (lines 145–148): `/session_id=([^; \n]+)/i`. -/
def extractSessionIdFromNotes (notes : String) : String :=
  match findCaptureCI "session_id=".data [';', ' ', '\n'] notes.data with
  | some cs => String.mk cs
  | none => ""

/-- The `stage=` capture of `handleNotify` line 462: `/stage=([^;\n]+)/i`. -/
def stageFromNotesOf (notes : String) : String :=
  match findCaptureCI "stage=".data [';', '\n'] notes.data with
  | some cs => String.mk cs
  | none => ""

/-- JS `a || b` where a numeric `0` (or an absent value) is falsy. -/
def jsOrQ (a : Option Rat) (b : Rat) : Rat :=
  match a with
  | none => b
  | some x => if x = 0 then b else x

/-- `getPackageByCode` (lines 229–242): first package whose `{code}` matches. -/
def getPackageByCode (w : PayWorld) (package_code : String) : Option PkgFields :=
  w.packages.find? (fun p => p.code == package_code)

/-- `airtableFindSessionRecordId` (lines 204–224): the record id of the first
session whose `session_id` matches (all formula candidates coincide in the
model). -/
def findSessionRecId (w : PayWorld) (session_id : String) : Option String :=
  (w.sessions.find? (fun p => p.2.session_id == session_id)).map (·.1)

/-- Result object of `createMemberPackageLedgerIfEligible`. -/
structure MlRes where
  ok : Bool
  created : Bool
  reason : Option String := none
  record_id : Option String := none
  start_date : Option String := none
  end_date : Option String := none
deriving DecidableEq, Repr

/-- Result object of `awardPointsIfEligible`. -/
structure PtRes where
  ok : Bool
  awarded : Bool
  reason : Option String := none
  record_id : Option String := none
  points : Option Int := none
deriving DecidableEq, Repr

/-- `createMemberPackageLedgerIfEligible` (lines 247–301): skip on missing
required fields, idempotent by `payment_ref` lookup, otherwise append one
entry (package duration/tier snapshotted when the package resolves).  The
Airtable create is modeled as succeeding; the unique-constraint catch branch
is therefore unreachable here. -/
def createMemberPackageLedgerIfEligible (w : PayWorld) (cfg : PayCfg)
    (member_email package_code : String) (amount_thb : Rat)
    (payment_ref paid_at_date provider source note : String) : MlRes × PayWorld :=
  if member_email = "" ∨ package_code = "" ∨ payment_ref = "" then
    ({ ok := true, created := false, reason := some "missing_required" }, w)
  else
    match w.memberLedger.find? (fun e => e.payment_ref == payment_ref) with
    | some ex =>
        ({ ok := true, created := false, reason := some "already_exists",
           record_id := some ex.id }, w)
    | none =>
        let pkg := getPackageByCode w package_code
        let duration_days : Int := match pkg with | some p => p.duration_days | none => 0
        let tier : String := match pkg with | some p => p.tier | none => ""
        let start_date := paid_at_date
        let end_date := if duration_days > 0 then cfg.addDays start_date duration_days else ""
        let entry : MlEntry :=
          { member_email, package_code, amount := amount_thb, start_date, end_date,
            payment_ref, provider, source,
            note := jsOr note ("created_from_payment_ref=" ++ payment_ref),
            tier := if tier = "" then none else some tier }
        ({ ok := true, created := true, start_date := some start_date,
           end_date := some end_date },
         { w with memberLedger := w.memberLedger ++ [entry] })

/-- `calcPoints` (lines 306–310): `0` for non-positive amounts, else
`Math.floor(amt / (rate || 100))`.  (The JS `NaN`/division-by-`Infinity`
pathologies of a malformed `POINTS_RATE` env string are outside the
rationals model; claims below assume a positive rate.) -/
def calcPoints (amountThb rate : Rat) : Int :=
  if amountThb ≤ 0 then 0
  else Int.floor (amountThb / (if rate = 0 then 100 else rate))

/-- `awardPointsIfEligible` (lines 312–357): requires a `payment_ref`, skips
when the computed points are non-positive, idempotent by `payment_ref`
lookup, otherwise appends one `points_ledger` entry.  Create modeled as
succeeding (unique-conflict catch unreachable). -/
def awardPointsIfEligible (w : PayWorld) (cfg : PayCfg)
    (member_email payment_ref session_id : String) (amount_thb : Rat)
    (source note : String) : PtRes × PayWorld :=
  if payment_ref = "" then
    ({ ok := false, awarded := false, reason := some "missing_payment_ref" }, w)
  else
    let points := calcPoints amount_thb cfg.pointsRate
    if points ≤ 0 then ({ ok := true, awarded := false, reason := some "points=0" }, w)
    else
      match w.pointsLedger.find? (fun e => e.payment_ref == payment_ref) with
      | some ex =>
          ({ ok := true, awarded := false, reason := some "already_awarded",
             record_id := some ex.id }, w)
      | none =>
          let entry : PtEntry :=
            { payment_ref, amount_thb, points, source,
              note := jsOr note ("award_from_payment_ref=" ++ payment_ref),
              member_email := if member_email = "" then none else some member_email,
              session_id := if session_id = "" then none else some session_id }
          ({ ok := true, awarded := true, points := some points },
           { w with pointsLedger := w.pointsLedger ++ [entry] })

/-! ## Payments worker: `/v1/pay/verify` (`handleVerify`, lines 362–431) -/

/-- The JSON body of `/v1/pay/verify`; absent fields are `""`/`none`. -/
structure VerifyBody where
  session_id : String := ""
  payment_stage : String := ""
  amount : Rat := 0
  package_code : String := ""
  payment_method : String := ""
deriving DecidableEq, Repr

/-- The 200 body of a successful verify. -/
structure VerifyResult where
  transaction_ref : String
  idempotent : Bool
  intent_key : String
  payment_stage : String
  package_code : Option String
  session_id : String
  payment_record_id : Option String
deriving DecidableEq, Repr

inductive VerifyResp where
  | missingSessionId
  | missingPaymentStage
  | missingPackageCode
  | ok (r : VerifyResult)
deriving DecidableEq, Repr

/-- `airtableCreatePaymentIntent` (lines 167–202): each field written only
when its env id exists; status is `"Pending"`, intent status `"pending"`,
notes record session/stage/created time. -/
def mkPaymentIntentFields (cfg : PayCfg) (session_id payment_stage transaction_ref : String)
    (amount : Rat) (payment_method package_code : String) (now : String) : PayFields :=
  { payment_ref := if cfg.fRef then some transaction_ref else none
    amount := if cfg.fAmount then some amount else none
    payment_status := if cfg.fStatus then some "Pending" else none
    payment_method := if cfg.fMethod then some payment_method else none
    package_code := if cfg.fPkg then some package_code else none
    payment_intent_status := if cfg.fIntentStatus then some "pending" else none
    notes := if cfg.fNotes then
        some ("session_id=" ++ session_id ++ "; stage=" ++ payment_stage
          ++ "; created_at=" ++ now)
      else none }

/-- `intent_key = intent:${session_id}:${payment_stage}` (line 377). -/
def intentKeyOf (body : VerifyBody) : String :=
  "intent:" ++ jsTrim body.session_id ++ ":" ++ normalizeStage body.payment_stage

/-- `handleVerify`: validate, reuse or mint the `transaction_ref` under
`intent:{session_id}:{stage}`, ensure a Payments record exists under
`payrec:{transaction_ref}`.  `freshRef` models the `uuidv4()` draw and
`freshRecId` the Airtable record id of a newly created intent record; the
Airtable create is modeled as succeeding (the `airtable_create_failed`
warning path is unreachable in the model). -/
def handleVerify (w : PayWorld) (cfg : PayCfg) (now freshRef freshRecId : String)
    (body : VerifyBody) : VerifyResp × PayWorld :=
  let session_id := jsTrim body.session_id
  let payment_stage := normalizeStage body.payment_stage
  let package_code := jsTrim body.package_code
  if session_id = "" then (.missingSessionId, w)
  else if payment_stage = "" then (.missingPaymentStage, w)
  else if isMembershipStage payment_stage = true ∧ package_code = "" then (.missingPackageCode, w)
  else
    let intent_key := intentKeyOf body
    let step1 : String × Bool × PayWorld :=
      match kvGet w intent_key with
      | some r => (r, true, w)
      | none => (freshRef, false, kvPut w intent_key freshRef)
    let transaction_ref := step1.1
    let idempotent := step1.2.1
    let w1 := step1.2.2
    let payrec_key := "payrec:" ++ transaction_ref
    let step2 : Option String × PayWorld :=
      match kvGet w1 payrec_key with
      | some pid => (some pid, w1)
      | none =>
        let f := mkPaymentIntentFields cfg session_id payment_stage transaction_ref
          body.amount (jsOr body.payment_method "promptpay") package_code now
        let w2 := { w1 with payments := (freshRecId, f) :: w1.payments }
        (some freshRecId, if freshRecId ≠ "" then kvPut w2 payrec_key freshRecId else w2)
    (.ok { transaction_ref, idempotent, intent_key, payment_stage,
           package_code := if package_code = "" then none else some package_code,
           session_id, payment_record_id := step2.1 },
     step2.2)

/-! ## Payments worker: `/v1/payments/notify` (`handleNotify`, lines 433–581) -/

/-- The JSON body of `/v1/payments/notify`; absent fields are `""`/`none`. -/
structure NotifyBody where
  transaction_ref : String := ""
  payment_ref : String := ""
  ref : String := ""
  payment_stage : String := ""
  stage : String := ""
  session_id : String := ""
  package_code : String := ""
  member_email : String := ""
  email : String := ""
  amount : Option Rat := none
  amount_thb : Option Rat := none
  paid_at : String := ""
  paid_at_date : String := ""
  provider_txn_id : String := ""
  provider_ref : String := ""
  receipt_photo : Option (List String) := none
  provider : String := ""
  source : String := ""
deriving DecidableEq, Repr

/-- The full-success 200 body of notify (lines 569–580). -/
structure NotifyResult where
  transaction_ref : String
  stage : String
  payment_record_id : Option String
  session_id : Option String
  package_code : Option String
  session_record_id : Option String
  session_updated : Bool
  membership_ledger : Option MlRes
  points_ledger : Option PtRes
deriving DecidableEq, Repr

inductive NotifyResp where
  | unauthorized
  | missingTransactionRef
  | alreadyPaid (transaction_ref : String) (payment_record_id : Option String)
  | done (r : NotifyResult)
deriving DecidableEq, Repr

/-- `String(body.transaction_ref || body.payment_ref || body.ref || "").trim()`. -/
def txOfNotify (body : NotifyBody) : String :=
  jsTrim (jsOr body.transaction_ref (jsOr body.payment_ref body.ref))

/-- The `payrec:{ref}` KV mapping lookup (line 445). -/
def lookupPaymentRecId (w : PayWorld) (tx : String) : Option String :=
  kvGet w ("payrec:" ++ tx)

/-- The Payments record fetch (lines 447–454): `null` when the KV mapping is
absent or the record fetch fails. -/
def lookupPaymentFields (w : PayWorld) (tx : String) : Option PayFields :=
  match lookupPaymentRecId w tx with
  | none => none
  | some pid => (w.payments.find? (fun p => p.1 == pid)).map (·.2)

/-- The stage resolution of notify (lines 460–463): normalized
`body.payment_stage`, else the `stage=` capture from the payment record's
notes, else `body.stage`; normalized. -/
def stageOfNotifyFields (cfg : PayCfg) (fields : PayFields) (body : NotifyBody) : String :=
  let notesFromPayment := if cfg.fNotes then fields.notes.getD "" else ""
  let payment_stage := normalizeStage body.payment_stage
  normalizeStage (jsOr payment_stage (jsOr (stageFromNotesOf notesFromPayment) body.stage))

/-- The stage a notify call resolves to, as a function of the pre-call
world. -/
def notifyStage (w : PayWorld) (cfg : PayCfg) (body : NotifyBody) : String :=
  stageOfNotifyFields cfg ((lookupPaymentFields w (txOfNotify body)).getD {}) body

/-- The current payment status a notify call reads (line 457):
`env.AT_PAYMENTS__PAYMENT_STATUS ? fields[...] : null`. -/
def notifyCurrentStatus (w : PayWorld) (cfg : PayCfg) (body : NotifyBody) : Option String :=
  if cfg.fStatus then ((lookupPaymentFields w (txOfNotify body)).getD {}).payment_status
  else none

/-- The amount a notify call resolves to (line 467):
`Number(body.amount || body.amount_thb || fields[AMOUNT] || 0)`. -/
def notifyAmount (w : PayWorld) (cfg : PayCfg) (body : NotifyBody) : Rat :=
  let fields := (lookupPaymentFields w (txOfNotify body)).getD {}
  jsOrQ body.amount (jsOrQ body.amount_thb
    (if cfg.fAmount then fields.amount.getD 0 else 0))

/-- The session id a notify call resolves to (line 464). -/
def notifySessionId (w : PayWorld) (cfg : PayCfg) (body : NotifyBody) : String :=
  jsTrim (jsOr body.session_id (extractSessionIdFromNotes
    (if cfg.fNotes then ((lookupPaymentFields w (txOfNotify body)).getD {}).notes.getD ""
     else "")))

/-- The package code a notify call resolves to (line 465). -/
def notifyPackageCode (w : PayWorld) (cfg : PayCfg) (body : NotifyBody) : String :=
  jsTrim (jsOr body.package_code
    (if cfg.fPkg then ((lookupPaymentFields w (txOfNotify body)).getD {}).package_code.getD ""
     else ""))

/-- The member email a notify call resolves to (line 466). -/
def notifyMemberEmail (body : NotifyBody) : String :=
  jsTrim (jsOr body.member_email body.email)

/-- The PATCH marking a payment record paid (lines 486–505), applied to the
stored fields; `notes2` is the appended notes string computed from the
fetched record. -/
def applyPaidPatch (cfg : PayCfg) (stored : PayFields) (paid_at notes2 : String)
    (receipt : Option (List String)) : PayFields :=
  { stored with
    payment_status := if cfg.fStatus then some "Paid" else stored.payment_status
    payment_date := if cfg.fDate then some paid_at else stored.payment_date
    verification_status := if cfg.fVerif then some "Verified" else stored.verification_status
    payment_intent_status := if cfg.fIntentStatus then some "paid" else stored.payment_intent_status
    notes := if cfg.fNotes then some notes2 else stored.notes
    receipt := if cfg.fReceipt then
        (match receipt with | some rp => some rp | none => stored.receipt)
      else stored.receipt }

/-- The Sessions PATCH for a service stage (lines 525–532). -/
def applySessPatch (cfg : PayCfg) (s : SessFields) (tx stage : String) : SessFields :=
  { s with
    payment_ref := if cfg.sRef then some tx else s.payment_ref
    payment_status := if cfg.sStatus then
        (if stage == "deposit" then some "deposit_paid"
         else if stage == "final" then some "paid"
         else if stage == "tips" then some "tips_paid"
         else s.payment_status)
      else s.payment_status }

/-- The tail of `handleNotify` once the short-circuit has been passed
(lines 480–581): mark the record paid, best-effort update the session for a
service stage, and run the membership/points ledger writes for the
membership stage.  (The stage/session/amount resolutions of lines 456–467
are pure values of the pre-call world and are recomputed here via their
named definitions.) -/
def handleNotifyMain (w : PayWorld) (cfg : PayCfg) (now : String)
    (body : NotifyBody) : NotifyResp × PayWorld :=
      let tx := txOfNotify body
      let payment_record_id := lookupPaymentRecId w tx
      let fields := (lookupPaymentFields w tx).getD {}
      let notesFromPayment := if cfg.fNotes then fields.notes.getD "" else ""
      let stage := notifyStage w cfg body
      let session_id := notifySessionId w cfg body
      let package_code := notifyPackageCode w cfg body
      let member_email := notifyMemberEmail body
      let amount_thb := notifyAmount w cfg body
      let paid_at := jsOr body.paid_at now
        let paid_at_date := jsOr body.paid_at_date (cfg.dateOnly paid_at)
        let provider_txn_id := jsTrim (jsOr body.provider_txn_id body.provider_ref)
        let notes2 := notesFromPayment ++ "; provider_txn_id=" ++ provider_txn_id
          ++ "; notified_at=" ++ now
        let w1 := match payment_record_id with
          | none => w
          | some pid =>
            { w with payments := w.payments.map (fun p =>
                if p.1 == pid then (p.1, applyPaidPatch cfg p.2 paid_at notes2 body.receipt_photo)
                else p) }
        let step2 : Bool × Option String × PayWorld :=
          if session_id ≠ "" ∧ isServiceStage stage = true then
            match findSessionRecId w1 session_id with
            | some sid =>
              (true, some sid,
               { w1 with sessions := w1.sessions.map (fun p =>
                   if p.1 == sid then (p.1, applySessPatch cfg p.2 tx stage) else p) })
            | none => (false, none, w1)
          else (false, none, w1)
        let session_updated := step2.1
        let session_record_id := step2.2.1
        let w2 := step2.2.2
        let step3 : Option MlRes × Option PtRes × PayWorld :=
          if isMembershipStage stage then
            let ml := createMemberPackageLedgerIfEligible w2 cfg member_email package_code
              amount_thb tx paid_at_date (jsOr body.provider "promptpay")
              (jsOr body.source "web") ("membership from " ++ tx)
            let pt := awardPointsIfEligible ml.2 cfg member_email tx session_id amount_thb
              "system" ("points from " ++ tx)
            (some ml.1, some pt.1, pt.2)
          else (none, none, w2)
        (.done { transaction_ref := tx, stage, payment_record_id,
                 session_id := if session_id = "" then none else some session_id,
                 package_code := if package_code = "" then none else some package_code,
                 session_record_id, session_updated,
                 membership_ledger := step3.1, points_ledger := step3.2.1 },
         step3.2.2)

/-- `handleNotify`, lines 433–581, assembled from the guards and
`handleNotifyMain`.  `authOk` is `requireConfirmKey`'s outcome; Airtable
updates/creates are modeled as succeeding (the
`airtable_payment_update_failed` warning path and the session-update catch
are unreachable in the model). -/
def handleNotify (w : PayWorld) (cfg : PayCfg) (authOk : Bool) (now : String)
    (body : NotifyBody) : NotifyResp × PayWorld :=
  if !authOk then (.unauthorized, w)
  else if txOfNotify body = "" then (.missingTransactionRef, w)
  else if asciiLower ((notifyCurrentStatus w cfg body).getD "") == "paid" then
    (.alreadyPaid (txOfNotify body) (lookupPaymentRecId w (txOfNotify body)), w)
  else handleNotifyMain w cfg now body

/-! ## Sessions intents worker: deposit amount helpers (`src/unnamed/part_000`) -/

/-- `ceilToStep` (lines 129–132): `Math.ceil(n / s) * s` with a non-positive
step replaced by 1. -/
def ceilToStep (n step : Rat) : Rat :=
  let s := if step > 0 then step else 1
  (Int.ceil (n / s) : Rat) * s

/-- `computeDepositAmount` (lines 134–137). -/
def computeDepositAmount (amountThb percent roundStep : Rat) : Rat :=
  ceilToStep (amountThb * percent / 100) roundStep

/-- What the deposit branch of `handleSessionPaymentIntent` (lines 172–186)
decides: `already_paid` when the paid total reaches the expected deposit,
otherwise the charge amount `max(0, expected − paid)` with the literal
fallback `if (amountToPay <= 0) amountToPay = depositExpected`. -/
inductive DepositDecision where
  | alreadyPaid
  | charge (amount : Rat)
deriving DecidableEq, Repr

def depositStageDecision (depositExpected depositPaidTotal : Rat) : DepositDecision :=
  if depositPaidTotal ≥ depositExpected then .alreadyPaid
  else
    let a := max 0 (depositExpected - depositPaidTotal)
    .charge (if a ≤ 0 then depositExpected else a)

/-- Spec-side formula (claim C7 wording):
`deposit_expected = ceil(session_amount * deposit_percent / 100 / round_step) * round_step`. -/
def depositExpectedSpec (session_amount deposit_percent round_step : Rat) : Rat :=
  (Int.ceil (session_amount * deposit_percent / 100 / round_step) : Rat) * round_step

/-- Spec-side formula (claim C7 wording): amount to charge =
`max(0, deposit_expected - already_paid_deposit_total)`, falling back to the
full `deposit_expected` when that subtraction is non-positive. -/
def depositChargeSpec (deposit_expected already_paid_deposit_total : Rat) : Rat :=
  let d := max 0 (deposit_expected - already_paid_deposit_total)
  if d ≤ 0 then deposit_expected else d

/-- Spec-side status resolution (claim C9 wording, with the code's
trimming/defaulting made explicit): the supplied explicit status if
non-empty; else the event name when recognized; else the job's previous
stored status, trimmed, defaulting to `"confirmed"` when empty. -/
def resolveCandidateStatusSpec (explicitStatus event prevStatus : String) : String :=
  if jsTrim explicitStatus ≠ "" then jsTrim explicitStatus
  else if DISPATCH_STATES.contains event then event
  else if jsTrim prevStatus = "" then "confirmed" else jsTrim prevStatus

/-! ## Generic KV / list lemmas -/

theorem kvGet_put_same (w : PayWorld) (k v : String) : kvGet (kvPut w k v) k = some v := by
  simp [kvGet, kvPut]

theorem kvGet_put_other (w : PayWorld) (k k' v : String) (h : k' ≠ k) :
    kvGet (kvPut w k v) k' = kvGet w k' := by
  simp [kvGet, kvPut, List.find?]
  have hb : (k == k') = false := by
    simp only [beq_eq_false_iff_ne]
    exact fun he => h he.symm
  simp [hb]

theorem payrec_ne_intent (a b : String) : ("payrec:" ++ a) ≠ ("intent:" ++ b) := by
  intro h
  have h2 : ("payrec:" ++ a).data = ("intent:" ++ b).data := congrArg String.data h
  rw [String.data_append, String.data_append,
      show "payrec:".data = ['p', 'a', 'y', 'r', 'e', 'c', ':'] from rfl,
      show "intent:".data = ['i', 'n', 't', 'e', 'n', 't', ':'] from rfl] at h2
  simp at h2

/-! ## Claims about the sessions intents worker and pure helpers -/

/-- C8: `normalize_event_name` maps "T-15 Live Chat", "t15 livechat" and
"T-15min เปิด live chat" to the canonical `t-15min_open_live_chat` token,
and "Arrived" to "arrived". -/
theorem c8_normalize_event_name :
    normalizeEventName "T-15 Live Chat" = "t-15min_open_live_chat"
    ∧ normalizeEventName "t15 livechat" = "t-15min_open_live_chat"
    ∧ normalizeEventName "T-15min เปิด live chat" = "t-15min_open_live_chat"
    ∧ normalizeEventName "Arrived" = "arrived" := by
  refine ⟨by decide, by decide, by decide, by decide⟩

/-- C9 counterexample: for a job whose stored status is empty and an event
(`"ping"`) that is not a recognized status name, with no explicit status
supplied, the resolved candidate is `"confirmed"`, not the job's previous
stored status (`""`) as the claim states. -/
theorem c9_counterexample :
    resolveCandidateStatus "" "ping" "" = "confirmed"
    ∧ resolveCandidateStatus "" "ping" "" ≠ "" := by
  refine ⟨by decide, by decide⟩

/-- C9 (amended): the candidate next status is the caller's `status` if
non-empty after trimming; otherwise the normalized event name when it is a
recognized status in `DISPATCH_STATES`; otherwise the job's previous stored
status (trimmed), with `"confirmed"` substituted when that is empty. -/
theorem c9_status_resolution (bodyStatus event prevStatus : String) :
    resolveCandidateStatus bodyStatus event prevStatus
      = resolveCandidateStatusSpec bodyStatus event prevStatus := by
  unfold resolveCandidateStatus resolveCandidateStatusSpec jsOr
  by_cases h1 : jsTrim bodyStatus = ""
  · by_cases h2 : DISPATCH_STATES.contains event
    · simp [h1, h2]
    · by_cases h3 : jsTrim prevStatus = "" <;> simp [h1, h2, h3]
  · simp [h1]

/-- C7 counterexample: when the already-paid total reaches the expected
deposit (subtraction non-positive), the deposit branch returns the
`already_paid` action and charges nothing — it does not fall back to
charging the full `deposit_expected` as the claim's fallback clause states
(here that would be a charge of 4000). -/
theorem c7_counterexample :
    depositStageDecision 4000 5000 = DepositDecision.alreadyPaid
    ∧ depositStageDecision 4000 5000 ≠ DepositDecision.charge (depositChargeSpec 4000 5000) := by
  have h1 : depositStageDecision 4000 5000 = DepositDecision.alreadyPaid := by
    norm_num [depositStageDecision]
  refine ⟨h1, ?_⟩
  rw [h1]
  intro h
  exact DepositDecision.noConfusion h

/-- C7 (amended): `deposit_expected` is
`ceil(session_amount * deposit_percent / 100 / round_step) * round_step`
(4000 on the worked example 12345/30%/500), and whenever the already-paid
total is strictly below `deposit_expected` the charged amount is
`max(0, deposit_expected - already_paid_deposit_total)` (= their
difference); when the subtraction is non-positive the branch answers
`already_paid` and creates no intent, so the literal fallback to the full
`deposit_expected` is unreachable. -/
theorem c7_deposit_computation :
    computeDepositAmount 12345 30 500 = 4000
    ∧ (∀ a p s : ℚ, 0 < s → computeDepositAmount a p s = depositExpectedSpec a p s)
    ∧ (∀ e pd : ℚ, pd < e →
        depositStageDecision e pd = DepositDecision.charge (max 0 (e - pd))
        ∧ depositChargeSpec e pd = max 0 (e - pd)
        ∧ (pd ≥ e → depositStageDecision e pd = DepositDecision.alreadyPaid)) := by
  refine ⟨?_, ?_, ?_⟩
  · have h8 : (⌈(7407 : ℚ) / 1000⌉ : ℤ) = 8 := by
      rw [Int.ceil_eq_iff]
      norm_num
    unfold computeDepositAmount ceilToStep
    norm_num
    rw [h8]
    norm_num
  · intro a p s hs
    unfold computeDepositAmount ceilToStep depositExpectedSpec
    rw [if_pos hs]
  · intro e pd h
    have hd : 0 < e - pd := sub_pos.mpr h
    have hmax : max 0 (e - pd) = e - pd := max_eq_right hd.le
    refine ⟨?_, ?_, ?_⟩
    · unfold depositStageDecision
      rw [if_neg (not_le.mpr h)]
      simp only [hmax]
      rw [if_neg (not_le.mpr hd)]
    · unfold depositChargeSpec
      simp only [hmax]
      rw [if_neg (not_le.mpr hd)]
    · intro hge
      exact absurd h (not_lt.mpr hge)

/-- Witness for C7 at concrete inputs. -/
theorem c7_deposit_computation_witness :
    ((0 : ℚ) < 500 ∧ computeDepositAmount 12345 30 500 = depositExpectedSpec 12345 30 500)
    ∧ ((1000 : ℚ) < 4000
        ∧ depositStageDecision 4000 1000 = DepositDecision.charge (max 0 (4000 - 1000))) :=
  ⟨⟨by norm_num, c7_deposit_computation.2.1 12345 30 500 (by norm_num)⟩,
   ⟨by norm_num, (c7_deposit_computation.2.2 4000 1000 (by norm_num)).1⟩⟩

/-! ## Claims about `/v1/pay/verify` -/

theorem payrec_ne_intentKey (a : String) (body : VerifyBody) :
    intentKeyOf body ≠ ("payrec:" ++ a) := by
  intro h
  have h2 := congrArg String.data h
  simp only [intentKeyOf, String.data_append] at h2
  simp at h2

/-- A verify call that finds both the intent mapping and the payrec mapping
replays them verbatim and changes nothing. -/
theorem handleVerify_replay (w : PayWorld) (cfg : PayCfg) (now fr rid : String)
    (body : VerifyBody) (tx pid : String)
    (hsid : jsTrim body.session_id ≠ "")
    (hstg : normalizeStage body.payment_stage ≠ "")
    (hpkg : ¬(isMembershipStage (normalizeStage body.payment_stage) = true
               ∧ jsTrim body.package_code = ""))
    (hk : kvGet w (intentKeyOf body) = some tx)
    (hp : kvGet w ("payrec:" ++ tx) = some pid) :
    handleVerify w cfg now fr rid body =
      (.ok { transaction_ref := tx, idempotent := true, intent_key := intentKeyOf body,
             payment_stage := normalizeStage body.payment_stage,
             package_code := if jsTrim body.package_code = "" then none
               else some (jsTrim body.package_code),
             session_id := jsTrim body.session_id, payment_record_id := some pid }, w) := by
  simp [handleVerify, hsid, hstg, hpkg, hk, hp]

/-- Any valid verify call answers 200 and leaves the world with the intent
mapping pointing at the returned `transaction_ref` and a payrec mapping for
it. -/
theorem handleVerify_establishes (w : PayWorld) (cfg : PayCfg) (now fr rid : String)
    (body : VerifyBody)
    (hsid : jsTrim body.session_id ≠ "")
    (hstg : normalizeStage body.payment_stage ≠ "")
    (hpkg : ¬(isMembershipStage (normalizeStage body.payment_stage) = true
               ∧ jsTrim body.package_code = ""))
    (hrid : rid ≠ "") :
    ∃ r : VerifyResult,
      (handleVerify w cfg now fr rid body).1 = .ok r
      ∧ kvGet (handleVerify w cfg now fr rid body).2 (intentKeyOf body)
          = some r.transaction_ref
      ∧ ∃ pid, kvGet (handleVerify w cfg now fr rid body).2 ("payrec:" ++ r.transaction_ref)
          = some pid := by
  cases hk : kvGet w (intentKeyOf body) with
  | some tx =>
    cases hp : kvGet w ("payrec:" ++ tx) with
    | some pid =>
      rw [handleVerify_replay w cfg now fr rid body tx pid hsid hstg hpkg hk hp]
      exact ⟨_, rfl, hk, pid, hp⟩
    | none =>
      refine ⟨{ transaction_ref := tx, idempotent := true, intent_key := intentKeyOf body,
                payment_stage := normalizeStage body.payment_stage,
                package_code := if jsTrim body.package_code = "" then none
                  else some (jsTrim body.package_code),
                session_id := jsTrim body.session_id, payment_record_id := some rid },
              ?_, ?_, rid, ?_⟩
      · simp [handleVerify, hsid, hstg, hpkg, hk, hp, hrid]
      · simp only [handleVerify]
        simp [hsid, hstg, hpkg, hk, hp, hrid]
        rw [kvGet_put_other]
        · exact hk
        · exact payrec_ne_intentKey tx body
      · simp only [handleVerify]
        simp [hsid, hstg, hpkg, hk, hp, hrid]
        exact kvGet_put_same _ _ _
  | none =>
    have hq : kvGet (kvPut w (intentKeyOf body) fr) ("payrec:" ++ fr)
        = kvGet w ("payrec:" ++ fr) :=
      kvGet_put_other _ _ _ _ (payrec_ne_intentKey fr body).symm
    cases hp : kvGet w ("payrec:" ++ fr) with
    | some pid =>
      have hq2 := hq.trans hp
      refine ⟨{ transaction_ref := fr, idempotent := false, intent_key := intentKeyOf body,
                payment_stage := normalizeStage body.payment_stage,
                package_code := if jsTrim body.package_code = "" then none
                  else some (jsTrim body.package_code),
                session_id := jsTrim body.session_id, payment_record_id := some pid },
              ?_, ?_, pid, ?_⟩
      · simp [handleVerify, hsid, hstg, hpkg, hk, hq2, hrid]
      · simp only [handleVerify]
        simp [hsid, hstg, hpkg, hk, hq2, hrid]
        exact kvGet_put_same _ _ _
      · simp only [handleVerify]
        simp [hsid, hstg, hpkg, hk, hq2, hrid]
    | none =>
      have hq2 := hq.trans hp
      refine ⟨{ transaction_ref := fr, idempotent := false, intent_key := intentKeyOf body,
                payment_stage := normalizeStage body.payment_stage,
                package_code := if jsTrim body.package_code = "" then none
                  else some (jsTrim body.package_code),
                session_id := jsTrim body.session_id, payment_record_id := some rid },
              ?_, ?_, rid, ?_⟩
      · simp [handleVerify, hsid, hstg, hpkg, hk, hq2, hrid]
      · simp only [handleVerify]
        simp [hsid, hstg, hpkg, hk, hq2, hrid]
        rw [kvGet_put_other]
        · exact kvGet_put_same _ _ _
        · exact payrec_ne_intentKey fr body
      · simp only [handleVerify]
        simp [hsid, hstg, hpkg, hk, hq2, hrid]
        exact kvGet_put_same _ _ _

/-- C4: two `create_or_get_intent` calls for the same
`(session_id, payment_stage)` pair (within the TTL window, i.e. while the
KV mappings persist) return the same `transaction_ref`; the second call
reports `idempotent = true`, changes nothing, and the intent key maps to
exactly that one reference. -/
theorem c4_intent_stability (w : PayWorld) (cfg : PayCfg)
    (now1 now2 fr1 rid1 fr2 rid2 : String) (body : VerifyBody)
    (hsid : jsTrim body.session_id ≠ "")
    (hstg : normalizeStage body.payment_stage ≠ "")
    (hpkg : ¬(isMembershipStage (normalizeStage body.payment_stage) = true
               ∧ jsTrim body.package_code = ""))
    (hrid : rid1 ≠ "") :
    ∃ r1 r2 : VerifyResult,
      (handleVerify w cfg now1 fr1 rid1 body).1 = .ok r1
      ∧ (handleVerify (handleVerify w cfg now1 fr1 rid1 body).2 cfg now2 fr2 rid2 body).1
          = .ok r2
      ∧ r2.transaction_ref = r1.transaction_ref
      ∧ r2.idempotent = true
      ∧ (handleVerify (handleVerify w cfg now1 fr1 rid1 body).2 cfg now2 fr2 rid2 body).2
          = (handleVerify w cfg now1 fr1 rid1 body).2
      ∧ kvGet (handleVerify w cfg now1 fr1 rid1 body).2 (intentKeyOf body)
          = some r1.transaction_ref := by
  obtain ⟨r1, h1, hkv, pid, hpr⟩ := handleVerify_establishes w cfg now1 fr1 rid1 body
    hsid hstg hpkg hrid
  have h2 := handleVerify_replay (handleVerify w cfg now1 fr1 rid1 body).2 cfg now2 fr2 rid2
    body r1.transaction_ref pid hsid hstg hpkg hkv hpr
  refine ⟨r1,
    { transaction_ref := r1.transaction_ref, idempotent := true,
      intent_key := intentKeyOf body, payment_stage := normalizeStage body.payment_stage,
      package_code := if jsTrim body.package_code = "" then none
        else some (jsTrim body.package_code),
      session_id := jsTrim body.session_id, payment_record_id := some pid },
    h1, ?_, rfl, rfl, ?_, hkv⟩
  · rw [h2]
  · rw [h2]

/-- Concrete sample configuration for witnesses (all Airtable field env ids
configured, the default `POINTS_RATE=100`). -/
def sampleCfg : PayCfg :=
  { fRef := true, fAmount := true, fStatus := true, fMethod := true, fPkg := true,
    fIntentStatus := true, fNotes := true, fDate := true, fVerif := true, fReceipt := true,
    sRef := true, sStatus := true, pointsRate := 100,
    dateOnly := fun _ => "2026-01-01", addDays := fun s _ => s }

/-- Empty payments world. -/
def emptyPayWorld : PayWorld :=
  { kv := [], payments := [], sessions := [], packages := [],
    memberLedger := [], pointsLedger := [] }

/-- Witness for C4 at a concrete input. -/
theorem c4_intent_stability_witness :
    ∃ r1 r2 : VerifyResult,
      (handleVerify emptyPayWorld sampleCfg "T1" "UUID1" "RID1"
        { session_id := "S1", payment_stage := "deposit" }).1 = .ok r1
      ∧ (handleVerify (handleVerify emptyPayWorld sampleCfg "T1" "UUID1" "RID1"
            { session_id := "S1", payment_stage := "deposit" }).2 sampleCfg "T2" "UUID2" "RID2"
          { session_id := "S1", payment_stage := "deposit" }).1 = .ok r2
      ∧ r2.transaction_ref = r1.transaction_ref
      ∧ r2.idempotent = true
      ∧ (handleVerify (handleVerify emptyPayWorld sampleCfg "T1" "UUID1" "RID1"
            { session_id := "S1", payment_stage := "deposit" }).2 sampleCfg "T2" "UUID2" "RID2"
          { session_id := "S1", payment_stage := "deposit" }).2
        = (handleVerify emptyPayWorld sampleCfg "T1" "UUID1" "RID1"
            { session_id := "S1", payment_stage := "deposit" }).2
      ∧ kvGet (handleVerify emptyPayWorld sampleCfg "T1" "UUID1" "RID1"
            { session_id := "S1", payment_stage := "deposit" }).2
          (intentKeyOf { session_id := "S1", payment_stage := "deposit" })
        = some r1.transaction_ref :=
  c4_intent_stability emptyPayWorld sampleCfg "T1" "T2" "UUID1" "RID1" "UUID2" "RID2"
    { session_id := "S1", payment_stage := "deposit" }
    (by decide) (by decide) (by decide) (by decide)

/-! ## Claims about `/v1/payments/notify` -/

theorem createMl_world (w : PayWorld) (cfg : PayCfg) (me pc : String) (amt : Rat)
    (pr pd pv src nt : String) :
    (createMemberPackageLedgerIfEligible w cfg me pc amt pr pd pv src nt).2.kv = w.kv
    ∧ (createMemberPackageLedgerIfEligible w cfg me pc amt pr pd pv src nt).2.payments
        = w.payments
    ∧ (createMemberPackageLedgerIfEligible w cfg me pc amt pr pd pv src nt).2.sessions
        = w.sessions
    ∧ (createMemberPackageLedgerIfEligible w cfg me pc amt pr pd pv src nt).2.pointsLedger
        = w.pointsLedger := by
  unfold createMemberPackageLedgerIfEligible
  dsimp only
  repeat' split
  all_goals exact ⟨rfl, rfl, rfl, rfl⟩

theorem awardPoints_world (w : PayWorld) (cfg : PayCfg) (me pr sid : String) (amt : Rat)
    (src nt : String) :
    (awardPointsIfEligible w cfg me pr sid amt src nt).2.kv = w.kv
    ∧ (awardPointsIfEligible w cfg me pr sid amt src nt).2.payments = w.payments
    ∧ (awardPointsIfEligible w cfg me pr sid amt src nt).2.sessions = w.sessions
    ∧ (awardPointsIfEligible w cfg me pr sid amt src nt).2.memberLedger = w.memberLedger := by
  unfold awardPointsIfEligible
  dsimp only
  repeat' split
  all_goals exact ⟨rfl, rfl, rfl, rfl⟩

theorem createMl_kv (w : PayWorld) (cfg : PayCfg) (me pc : String) (amt : Rat)
    (pr pd pv src nt : String) :
    (createMemberPackageLedgerIfEligible w cfg me pc amt pr pd pv src nt).2.kv = w.kv :=
  (createMl_world w cfg me pc amt pr pd pv src nt).1

theorem createMl_payments (w : PayWorld) (cfg : PayCfg) (me pc : String) (amt : Rat)
    (pr pd pv src nt : String) :
    (createMemberPackageLedgerIfEligible w cfg me pc amt pr pd pv src nt).2.payments
      = w.payments :=
  (createMl_world w cfg me pc amt pr pd pv src nt).2.1

theorem createMl_sessions (w : PayWorld) (cfg : PayCfg) (me pc : String) (amt : Rat)
    (pr pd pv src nt : String) :
    (createMemberPackageLedgerIfEligible w cfg me pc amt pr pd pv src nt).2.sessions
      = w.sessions :=
  (createMl_world w cfg me pc amt pr pd pv src nt).2.2.1

theorem createMl_points (w : PayWorld) (cfg : PayCfg) (me pc : String) (amt : Rat)
    (pr pd pv src nt : String) :
    (createMemberPackageLedgerIfEligible w cfg me pc amt pr pd pv src nt).2.pointsLedger
      = w.pointsLedger :=
  (createMl_world w cfg me pc amt pr pd pv src nt).2.2.2

theorem awardPoints_kv (w : PayWorld) (cfg : PayCfg) (me pr sid : String) (amt : Rat)
    (src nt : String) :
    (awardPointsIfEligible w cfg me pr sid amt src nt).2.kv = w.kv :=
  (awardPoints_world w cfg me pr sid amt src nt).1

theorem awardPoints_payments (w : PayWorld) (cfg : PayCfg) (me pr sid : String) (amt : Rat)
    (src nt : String) :
    (awardPointsIfEligible w cfg me pr sid amt src nt).2.payments = w.payments :=
  (awardPoints_world w cfg me pr sid amt src nt).2.1

theorem awardPoints_sessions (w : PayWorld) (cfg : PayCfg) (me pr sid : String) (amt : Rat)
    (src nt : String) :
    (awardPointsIfEligible w cfg me pr sid amt src nt).2.sessions = w.sessions :=
  (awardPoints_world w cfg me pr sid amt src nt).2.2.1

theorem awardPoints_ml (w : PayWorld) (cfg : PayCfg) (me pr sid : String) (amt : Rat)
    (src nt : String) :
    (awardPointsIfEligible w cfg me pr sid amt src nt).2.memberLedger = w.memberLedger :=
  (awardPoints_world w cfg me pr sid amt src nt).2.2.2

theorem service_not_membership (s : String) (h : isServiceStage s = true) :
    isMembershipStage s = false := by
  by_cases hm : normalizeStage s = "membership"
  · simp [isServiceStage, hm] at h
  · simp [isMembershipStage, hm]

theorem membership_not_service (s : String) (h : isMembershipStage s = true) :
    isServiceStage s = false := by
  have hm : normalizeStage s = "membership" := by simpa [isMembershipStage] using h
  simp [isServiceStage, hm]

/-- C5: the membership-ledger branch and the service-stage branch of
`notify_paid` are mutually exclusive: a call resolving to a service stage
(`deposit`/`final`/`tips`) leaves both the member-package and the points
ledgers untouched and reports no ledger sub-results; a call resolving to
`membership` leaves every Session record untouched and reports
`session_updated = false`. -/
theorem c5_stage_exclusivity (w : PayWorld) (cfg : PayCfg) (authOk : Bool)
    (now : String) (body : NotifyBody) :
    (isServiceStage (notifyStage w cfg body) = true →
      (handleNotify w cfg authOk now body).2.memberLedger = w.memberLedger
      ∧ (handleNotify w cfg authOk now body).2.pointsLedger = w.pointsLedger
      ∧ ∀ r, (handleNotify w cfg authOk now body).1 = .done r →
          r.membership_ledger = none ∧ r.points_ledger = none)
    ∧ (isMembershipStage (notifyStage w cfg body) = true →
      (handleNotify w cfg authOk now body).2.sessions = w.sessions
      ∧ ∀ r, (handleNotify w cfg authOk now body).1 = .done r →
          r.session_updated = false ∧ r.session_record_id = none) := by
  constructor
  · intro hs
    have hm : isMembershipStage (notifyStage w cfg body) = false :=
      service_not_membership _ hs
    cases authOk with
    | false => simp [handleNotify]
    | true =>
      by_cases htx : txOfNotify body = ""
      · simp [handleNotify, htx]
      · by_cases hpaid : asciiLower ((notifyCurrentStatus w cfg body).getD "") = "paid"
        · simp [handleNotify, htx, hpaid]
        · rw [show handleNotify w cfg true now body = handleNotifyMain w cfg now body by
            simp [handleNotify, htx, hpaid]]
          simp only [handleNotifyMain]
          simp [hm]
          (repeat' split) <;> simp_all
  · intro hmem
    have hs : isServiceStage (notifyStage w cfg body) = false :=
      membership_not_service _ hmem
    cases authOk with
    | false => simp [handleNotify]
    | true =>
      by_cases htx : txOfNotify body = ""
      · simp [handleNotify, htx]
      · by_cases hpaid : asciiLower ((notifyCurrentStatus w cfg body).getD "") = "paid"
        · simp [handleNotify, htx, hpaid]
        · rw [show handleNotify w cfg true now body = handleNotifyMain w cfg now body by
            simp [handleNotify, htx, hpaid]]
          simp only [handleNotifyMain]
          simp [hmem, hs]
          (repeat' split) <;> simp_all [createMl_sessions, awardPoints_sessions]

/-- Sample payment-intent record fields used by witnesses. -/
def samplePayFields : PayFields :=
  { payment_ref := some "TX1", amount := some 1000, payment_status := some "Pending",
    package_code := some "PKG",
    notes := some "session_id=S1; stage=membership; created_at=T0" }

/-- Sample payments world: one pending intent `TX1` mapped in KV, one
session `S1`, one package `PKG`, empty ledgers. -/
def samplePayWorld : PayWorld :=
  { kv := [("payrec:TX1", "recP")], payments := [("recP", samplePayFields)],
    sessions := [("recS", { session_id := "S1" })],
    packages := [{ code := "PKG", duration_days := 30, tier := "vip" }],
    memberLedger := [], pointsLedger := [] }

/-- Sample notify body resolving to the `deposit` service stage. -/
def sampleNotifyDeposit : NotifyBody :=
  { transaction_ref := "TX1", payment_stage := "deposit", session_id := "S1",
    amount := some 1000 }

/-- Sample notify body resolving to the `membership` stage. -/
def sampleNotifyMembership : NotifyBody :=
  { transaction_ref := "TX1", payment_stage := "membership", package_code := "PKG",
    member_email := "a@b.c", amount := some 1000 }

/-- Witness for C5 at concrete inputs. -/
theorem c5_stage_exclusivity_witness :
    (isServiceStage (notifyStage samplePayWorld sampleCfg sampleNotifyDeposit) = true
      ∧ ((handleNotify samplePayWorld sampleCfg true "T1" sampleNotifyDeposit).2.memberLedger
            = samplePayWorld.memberLedger
        ∧ (handleNotify samplePayWorld sampleCfg true "T1" sampleNotifyDeposit).2.pointsLedger
            = samplePayWorld.pointsLedger
        ∧ ∀ r, (handleNotify samplePayWorld sampleCfg true "T1" sampleNotifyDeposit).1 = .done r →
            r.membership_ledger = none ∧ r.points_ledger = none))
    ∧ (isMembershipStage (notifyStage samplePayWorld sampleCfg sampleNotifyMembership) = true
      ∧ ((handleNotify samplePayWorld sampleCfg true "T1" sampleNotifyMembership).2.sessions
            = samplePayWorld.sessions
        ∧ ∀ r, (handleNotify samplePayWorld sampleCfg true "T1" sampleNotifyMembership).1
              = .done r →
            r.session_updated = false ∧ r.session_record_id = none)) :=
  ⟨⟨by decide,
    (c5_stage_exclusivity samplePayWorld sampleCfg true "T1" sampleNotifyDeposit).1 (by decide)⟩,
   ⟨by decide,
    (c5_stage_exclusivity samplePayWorld sampleCfg true "T1" sampleNotifyMembership).2 (by decide)⟩⟩

/-- Patching the record stored under key `k` in an association list is
visible to a subsequent keyed lookup. -/
theorem find?_map_patch {β : Type} (k : String) (g : β → β) :
    ∀ (l : List (String × β)) (v : β),
      l.find? (fun p => p.1 == k) = some (k, v) →
      (l.map (fun p => if p.1 == k then (p.1, g p.2) else p)).find? (fun p => p.1 == k)
        = some (k, g v) := by
  intro l
  induction l with
  | nil => intro v h; simp at h
  | cons hd tl ih =>
    intro v h
    by_cases hk : (hd.1 == k) = true
    · rw [@List.find?_cons_of_pos (String × β) (fun q => q.1 == k) hd tl hk] at h
      have hhd : hd = (k, v) := Option.some.inj h
      subst hhd
      simp only [List.map_cons]
      rw [if_pos hk]
      exact @List.find?_cons_of_pos (String × β) (fun q => q.1 == k) _ _ hk
    · rw [@List.find?_cons_of_neg (String × β) (fun q => q.1 == k) hd tl hk] at h
      simp only [List.map_cons]
      rw [if_neg hk]
      rw [@List.find?_cons_of_neg (String × β) (fun q => q.1 == k) hd
          (tl.map (fun p => if p.1 == k then (p.1, g p.2) else p)) hk]
      exact ih v h

theorem createMl_len (w : PayWorld) (cfg : PayCfg) (me pc : String) (amt : Rat)
    (pr pd pv src nt : String) :
    (createMemberPackageLedgerIfEligible w cfg me pc amt pr pd pv src nt).2.memberLedger.length
      ≤ w.memberLedger.length + 1 := by
  unfold createMemberPackageLedgerIfEligible
  dsimp only
  repeat' split
  all_goals simp

theorem awardPoints_len (w : PayWorld) (cfg : PayCfg) (me pr sid : String) (amt : Rat)
    (src nt : String) :
    (awardPointsIfEligible w cfg me pr sid amt src nt).2.pointsLedger.length
      ≤ w.pointsLedger.length + 1 := by
  unfold awardPointsIfEligible
  dsimp only
  repeat' split
  all_goals simp

/-- The appended notes the paid-marking PATCH writes (lines 493–496). -/
def notifyNotes2 (w : PayWorld) (cfg : PayCfg) (body : NotifyBody) (now : String) : String :=
  (if cfg.fNotes then ((lookupPaymentFields w (txOfNotify body)).getD {}).notes.getD "" else "")
    ++ "; provider_txn_id=" ++ jsTrim (jsOr body.provider_txn_id body.provider_ref)
    ++ "; notified_at=" ++ now

/-- The idempotent short-circuit of `handleNotify` (lines 470–478): a
transaction whose resolved record already reads `paid` answers
`{already_paid: true, ledger_written: false}` at once and writes nothing. -/
theorem notify_already_paid (w : PayWorld) (cfg : PayCfg) (now : String) (body : NotifyBody)
    (htx : txOfNotify body ≠ "")
    (hpaid : asciiLower ((notifyCurrentStatus w cfg body).getD "") = "paid") :
    handleNotify w cfg true now body
      = (.alreadyPaid (txOfNotify body) (lookupPaymentRecId w (txOfNotify body)), w) := by
  simp [handleNotify, htx, hpaid]

/-- On the non-short-circuited path `handleNotify` runs `handleNotifyMain`. -/
theorem handleNotify_eq_main (w : PayWorld) (cfg : PayCfg) (now : String) (body : NotifyBody)
    (htx : txOfNotify body ≠ "")
    (hnot : asciiLower ((notifyCurrentStatus w cfg body).getD "") ≠ "paid") :
    handleNotify w cfg true now body = handleNotifyMain w cfg now body := by
  simp [handleNotify, htx, hnot]

/-- The notify main path never writes the KV store. -/
theorem handleNotifyMain_kv (w : PayWorld) (cfg : PayCfg) (now : String) (body : NotifyBody) :
    (handleNotifyMain w cfg now body).2.kv = w.kv := by
  simp only [handleNotifyMain]
  (repeat' split) <;> simp_all [createMl_kv, awardPoints_kv]

/-- The notify main path appends at most one member-package ledger entry. -/
theorem handleNotifyMain_mlLen (w : PayWorld) (cfg : PayCfg) (now : String) (body : NotifyBody) :
    (handleNotifyMain w cfg now body).2.memberLedger.length ≤ w.memberLedger.length + 1 := by
  simp only [handleNotifyMain]
  (repeat' split)
  all_goals simp only [awardPoints_ml]
  all_goals
    first
      | (simp
         done)
      | (refine le_trans (createMl_len _ _ _ _ _ _ _ _ _ _) ?_
         simp)

/-- The notify main path appends at most one points ledger entry. -/
theorem handleNotifyMain_ptLen (w : PayWorld) (cfg : PayCfg) (now : String) (body : NotifyBody) :
    (handleNotifyMain w cfg now body).2.pointsLedger.length ≤ w.pointsLedger.length + 1 := by
  simp only [handleNotifyMain]
  (repeat' split)
  all_goals
    first
      | (simp
         done)
      | (refine le_trans (awardPoints_len _ _ _ _ _ _ _ _) ?_
         simp [createMl_points])

/-- After the notify main path, a resolvable payment record carries the
paid PATCH (in particular `payment_status = "Paid"` when that field id is
configured). -/
theorem handleNotifyMain_payments (w : PayWorld) (cfg : PayCfg) (now : String)
    (body : NotifyBody) (pid : String) (f : PayFields)
    (hrec : lookupPaymentRecId w (txOfNotify body) = some pid)
    (hfind : w.payments.find? (fun p => p.1 == pid) = some (pid, f)) :
    (handleNotifyMain w cfg now body).2.payments.find? (fun p => p.1 == pid)
      = some (pid, applyPaidPatch cfg f (jsOr body.paid_at now)
          (notifyNotes2 w cfg body now) body.receipt_photo) := by
  have hpatched := find?_map_patch pid
    (fun x => applyPaidPatch cfg x (jsOr body.paid_at now)
      (notifyNotes2 w cfg body now) body.receipt_photo) w.payments f hfind
  simp only [handleNotifyMain]
  simp only [hrec]
  (repeat' split) <;>
    simp_all [notifyNotes2, createMl_payments, awardPoints_payments]

/-- When a membership-stage notify call reaches the ledger step with a
non-empty member email, package code and transaction reference and no prior
entry for this reference, exactly one member-package ledger entry is
appended. -/
theorem handleNotifyMain_ml_created (w : PayWorld) (cfg : PayCfg) (now : String)
    (body : NotifyBody)
    (hmem : isMembershipStage (notifyStage w cfg body) = true)
    (hem : notifyMemberEmail body ≠ "")
    (hpc : notifyPackageCode w cfg body ≠ "")
    (htx : txOfNotify body ≠ "")
    (hnoex : w.memberLedger.find? (fun e => e.payment_ref == txOfNotify body) = none) :
    (handleNotifyMain w cfg now body).2.memberLedger.length = w.memberLedger.length + 1 := by
  simp only [handleNotifyMain]
  simp only [hmem, if_true]
  (repeat' split) <;>
    simp_all [awardPoints_ml, createMemberPackageLedgerIfEligible, hem, hpc, htx, hnoex,
              -List.find?_eq_none]

/-- When additionally the computed points are positive and no prior points
entry exists for this reference, exactly one points ledger entry is
appended. -/
theorem handleNotifyMain_pt_created (w : PayWorld) (cfg : PayCfg) (now : String)
    (body : NotifyBody)
    (hmem : isMembershipStage (notifyStage w cfg body) = true)
    (htx : txOfNotify body ≠ "")
    (hpts : 0 < calcPoints (notifyAmount w cfg body) cfg.pointsRate)
    (hnoex : w.pointsLedger.find? (fun e => e.payment_ref == txOfNotify body) = none) :
    (handleNotifyMain w cfg now body).2.pointsLedger.length = w.pointsLedger.length + 1 := by
  simp only [handleNotifyMain]
  simp only [hmem, if_true]
  (repeat' split) <;>
    simp_all [awardPointsIfEligible, createMl_points, htx, hnoex,
              eq_false (not_le.mpr hpts), -List.find?_eq_none]

/-- C3: a `notify_paid` call whose resolved payment record already reads
`paid` answers `{already_paid: true, ledger_written: false}` immediately and
performs no writes at all; consequently, when a first call finds the record
unpaid and marks it `Paid` (payment-status field id configured), a second
call with the same `transaction_ref` short-circuits and changes nothing, so
every ledger write happens in the first call: at most one entry per ledger
in general, and exactly one member-package entry when the membership-ledger
branch applies (membership stage, member email, package code, no prior
entry for this reference) and exactly one points entry when the points
branch applies (membership stage, positive computed points, no prior points
entry for this reference). -/
theorem c3_notify_paid_once (w : PayWorld) (cfg : PayCfg) (now1 now2 : String)
    (body : NotifyBody) (pid : String) (f : PayFields)
    (htx : txOfNotify body ≠ "") :
    (asciiLower ((notifyCurrentStatus w cfg body).getD "") = "paid" →
      handleNotify w cfg true now1 body
        = (.alreadyPaid (txOfNotify body) (lookupPaymentRecId w (txOfNotify body)), w))
    ∧ (cfg.fStatus = true →
       asciiLower ((notifyCurrentStatus w cfg body).getD "") ≠ "paid" →
       lookupPaymentRecId w (txOfNotify body) = some pid →
       w.payments.find? (fun p => p.1 == pid) = some (pid, f) →
        handleNotify (handleNotify w cfg true now1 body).2 cfg true now2 body
          = (.alreadyPaid (txOfNotify body)
              (lookupPaymentRecId (handleNotify w cfg true now1 body).2 (txOfNotify body)),
             (handleNotify w cfg true now1 body).2)
        ∧ (handleNotify w cfg true now1 body).2.memberLedger.length
            ≤ w.memberLedger.length + 1
        ∧ (handleNotify w cfg true now1 body).2.pointsLedger.length
            ≤ w.pointsLedger.length + 1
        ∧ (isMembershipStage (notifyStage w cfg body) = true →
           notifyMemberEmail body ≠ "" →
           notifyPackageCode w cfg body ≠ "" →
           w.memberLedger.find? (fun e => e.payment_ref == txOfNotify body) = none →
            (handleNotify w cfg true now1 body).2.memberLedger.length
              = w.memberLedger.length + 1)
        ∧ (isMembershipStage (notifyStage w cfg body) = true →
           0 < calcPoints (notifyAmount w cfg body) cfg.pointsRate →
           w.pointsLedger.find? (fun e => e.payment_ref == txOfNotify body) = none →
            (handleNotify w cfg true now1 body).2.pointsLedger.length
              = w.pointsLedger.length + 1)) := by
  constructor
  · intro hpaid
    exact notify_already_paid w cfg now1 body htx hpaid
  · intro hcfg hnot hrec hfind
    have hmain := handleNotify_eq_main w cfg now1 body htx hnot
    have hkv : (handleNotify w cfg true now1 body).2.kv = w.kv := by
      rw [hmain]; exact handleNotifyMain_kv w cfg now1 body
    have hrec1 : lookupPaymentRecId (handleNotify w cfg true now1 body).2 (txOfNotify body)
        = some pid := by
      unfold lookupPaymentRecId kvGet at hrec ⊢
      rw [hkv]; exact hrec
    have hfind1 : (handleNotify w cfg true now1 body).2.payments.find? (fun p => p.1 == pid)
        = some (pid, applyPaidPatch cfg f (jsOr body.paid_at now1)
            (notifyNotes2 w cfg body now1) body.receipt_photo) := by
      rw [hmain]; exact handleNotifyMain_payments w cfg now1 body pid f hrec hfind
    have hpaid2 : asciiLower
        ((notifyCurrentStatus (handleNotify w cfg true now1 body).2 cfg body).getD "")
        = "paid" := by
      unfold notifyCurrentStatus lookupPaymentFields
      rw [if_pos hcfg, hrec1]
      dsimp only
      rw [hfind1]
      simp [applyPaidPatch, hcfg]
      decide
    refine ⟨notify_already_paid _ cfg now2 body htx hpaid2, ?_, ?_, ?_, ?_⟩
    · rw [hmain]; exact handleNotifyMain_mlLen w cfg now1 body
    · rw [hmain]; exact handleNotifyMain_ptLen w cfg now1 body
    · intro hmem hem hpc hnoml
      rw [hmain]
      exact handleNotifyMain_ml_created w cfg now1 body hmem hem hpc htx hnoml
    · intro hmem hpts hnopt
      rw [hmain]
      exact handleNotifyMain_pt_created w cfg now1 body hmem htx hpts hnopt

/-- Witness for C3 at a concrete input: one pending membership intent, two
notify calls; the second short-circuits on the now-`Paid` record, and the
first call wrote exactly one member-package entry and exactly one points
entry (the concrete ledgers start empty). -/
theorem c3_notify_paid_once_witness :
    (txOfNotify sampleNotifyMembership ≠ ""
      ∧ sampleCfg.fStatus = true
      ∧ asciiLower ((notifyCurrentStatus samplePayWorld sampleCfg
          sampleNotifyMembership).getD "") ≠ "paid"
      ∧ lookupPaymentRecId samplePayWorld (txOfNotify sampleNotifyMembership) = some "recP"
      ∧ samplePayWorld.payments.find? (fun p => p.1 == "recP")
          = some ("recP", samplePayFields)
      ∧ isMembershipStage (notifyStage samplePayWorld sampleCfg sampleNotifyMembership) = true
      ∧ notifyMemberEmail sampleNotifyMembership ≠ ""
      ∧ notifyPackageCode samplePayWorld sampleCfg sampleNotifyMembership ≠ ""
      ∧ 0 < calcPoints (notifyAmount samplePayWorld sampleCfg sampleNotifyMembership)
          sampleCfg.pointsRate)
    ∧ (handleNotify (handleNotify samplePayWorld sampleCfg true "T1" sampleNotifyMembership).2
          sampleCfg true "T2" sampleNotifyMembership
        = (.alreadyPaid (txOfNotify sampleNotifyMembership)
            (lookupPaymentRecId
              (handleNotify samplePayWorld sampleCfg true "T1" sampleNotifyMembership).2
              (txOfNotify sampleNotifyMembership)),
           (handleNotify samplePayWorld sampleCfg true "T1" sampleNotifyMembership).2)
        ∧ (handleNotify samplePayWorld sampleCfg true "T1" sampleNotifyMembership).2.memberLedger.length
            = samplePayWorld.memberLedger.length + 1
        ∧ (handleNotify samplePayWorld sampleCfg true "T1" sampleNotifyMembership).2.pointsLedger.length
            = samplePayWorld.pointsLedger.length + 1) := by
  have hamt : notifyAmount samplePayWorld sampleCfg sampleNotifyMembership = 1000 := by decide
  have hrate : sampleCfg.pointsRate = (100 : Rat) := rfl
  have h10 : Int.floor ((1000 : Rat) / 100) = (10 : Int) := by
    rw [Int.floor_eq_iff]
    norm_num
  have hpts : 0 < calcPoints (notifyAmount samplePayWorld sampleCfg sampleNotifyMembership)
      sampleCfg.pointsRate := by
    rw [hamt, hrate]
    unfold calcPoints
    rw [if_neg (by norm_num), if_neg (by norm_num), h10]
    norm_num
  have H := (c3_notify_paid_once samplePayWorld sampleCfg "T1" "T2" sampleNotifyMembership
      "recP" samplePayFields (by decide)).2 rfl (by decide) (by decide) (by decide)
  exact ⟨⟨by decide, rfl, by decide, by decide, by decide, by decide, by decide, by decide,
          hpts⟩,
    H.1,
    H.2.2.2.1 (by decide) (by decide) (by decide) (by decide),
    H.2.2.2.2 (by decide) hpts (by decide)⟩

/-- Any entry `awardPointsIfEligible` adds to the points ledger carries
exactly the computed points, and those points were positive. -/
theorem awardPoints_new_entry (w : PayWorld) (cfg : PayCfg) (me pr sid : String)
    (amt : Rat) (src nt : String) :
    ∀ e ∈ (awardPointsIfEligible w cfg me pr sid amt src nt).2.pointsLedger,
      e ∉ w.pointsLedger →
      e.points = calcPoints amt cfg.pointsRate ∧ 0 < calcPoints amt cfg.pointsRate := by
  unfold awardPointsIfEligible
  dsimp only
  repeat' split
  all_goals intro e he hne
  all_goals simp_all

/-- With non-positive computed points, `awardPointsIfEligible` writes
nothing and reports `awarded = false`. -/
theorem awardPoints_no_award (w : PayWorld) (cfg : PayCfg) (me pr sid : String)
    (amt : Rat) (src nt : String) (h : calcPoints amt cfg.pointsRate ≤ 0) :
    (awardPointsIfEligible w cfg me pr sid amt src nt).2.pointsLedger = w.pointsLedger
    ∧ (awardPointsIfEligible w cfg me pr sid amt src nt).1.awarded = false := by
  unfold awardPointsIfEligible
  dsimp only
  repeat' split
  all_goals exact ⟨rfl, rfl⟩

set_option maxHeartbeats 1000000 in
/-- Points behaviour of the notify main path: a new points entry carries
exactly `calcPoints` of the resolved amount (necessarily positive), and
with non-positive computed points nothing is written and the points
sub-result reports `awarded = false`. -/
theorem handleNotifyMain_points (w : PayWorld) (cfg : PayCfg) (now : String)
    (body : NotifyBody) :
    (∀ e ∈ (handleNotifyMain w cfg now body).2.pointsLedger, e ∉ w.pointsLedger →
      e.points = calcPoints (notifyAmount w cfg body) cfg.pointsRate
      ∧ 0 < calcPoints (notifyAmount w cfg body) cfg.pointsRate)
    ∧ (calcPoints (notifyAmount w cfg body) cfg.pointsRate ≤ 0 →
        (handleNotifyMain w cfg now body).2.pointsLedger = w.pointsLedger
        ∧ ∀ r pt, (handleNotifyMain w cfg now body).1 = .done r →
            r.points_ledger = some pt → pt.awarded = false) := by
  constructor
  · intro e he hne
    revert he
    simp only [handleNotifyMain]
    (repeat' split) <;> intro he <;>
      first
        | (refine awardPoints_new_entry _ cfg (notifyMemberEmail body) (txOfNotify body)
             (notifySessionId w cfg body) (notifyAmount w cfg body) "system"
             ("points from " ++ txOfNotify body) e he ?_
           simpa [createMl_points] using hne)
        | exact absurd he hne
  · intro hle
    constructor
    · simp only [handleNotifyMain]
      (repeat' split) <;>
        first
          | rfl
          | (rw [(awardPoints_no_award _ _ _ _ _ _ _ _ hle).1]
             simp [createMl_points])
    · intro r pt hdone hpt
      revert hdone
      simp only [handleNotifyMain]
      (repeat' split) <;> intro hdone <;> cases hdone <;>
        first
          | (simp at hpt
             done)
          | (have hpt2 : pt = (awardPointsIfEligible _ cfg (notifyMemberEmail body)
                (txOfNotify body) (notifySessionId w cfg body) (notifyAmount w cfg body)
                "system" ("points from " ++ txOfNotify body)).1 :=
               (Option.some.inj hpt).symm
             rw [hpt2]
             exact (awardPoints_no_award _ _ _ _ _ _ _ _ hle).2)

/-- C10: every points ledger entry created by `notify_paid` records
`points = floor(amount_thb / POINTS_RATE)` with at least 1 point; when that
floor is 0 or less, no points entry is created and the points sub-result
reports `awarded = false`.  (`POINTS_RATE` is assumed positive; its default
is 100.) -/
theorem c10_points_floor (w : PayWorld) (cfg : PayCfg) (authOk : Bool) (now : String)
    (body : NotifyBody) (hrate : 0 < cfg.pointsRate) :
    (∀ e ∈ (handleNotify w cfg authOk now body).2.pointsLedger, e ∉ w.pointsLedger →
        e.points = Int.floor (notifyAmount w cfg body / cfg.pointsRate) ∧ 1 ≤ e.points)
    ∧ (Int.floor (notifyAmount w cfg body / cfg.pointsRate) ≤ 0 →
        (handleNotify w cfg authOk now body).2.pointsLedger = w.pointsLedger
        ∧ ∀ r pt, (handleNotify w cfg authOk now body).1 = .done r →
            r.points_ledger = some pt → pt.awarded = false) := by
  have hrne : cfg.pointsRate ≠ 0 := ne_of_gt hrate
  have hcalc_pos : 0 < calcPoints (notifyAmount w cfg body) cfg.pointsRate →
      calcPoints (notifyAmount w cfg body) cfg.pointsRate
        = Int.floor (notifyAmount w cfg body / cfg.pointsRate) := by
    intro h
    unfold calcPoints at h ⊢
    by_cases hamt : notifyAmount w cfg body ≤ 0
    · rw [if_pos hamt] at h
      exact absurd h (by norm_num)
    · rw [if_neg hamt, if_neg hrne]
  have hfl : Int.floor (notifyAmount w cfg body / cfg.pointsRate) ≤ 0 →
      calcPoints (notifyAmount w cfg body) cfg.pointsRate ≤ 0 := by
    intro h
    unfold calcPoints
    by_cases hamt : notifyAmount w cfg body ≤ 0
    · rw [if_pos hamt]
    · rw [if_neg hamt, if_neg hrne]
      exact h
  cases authOk with
  | false =>
    constructor
    · intro e he hne
      exact absurd he hne
    · intro h
      refine ⟨rfl, ?_⟩
      intro r pt hd hpt
      simp [handleNotify] at hd
  | true =>
    by_cases htx : txOfNotify body = ""
    · rw [show handleNotify w cfg true now body = (.missingTransactionRef, w) by
        simp [handleNotify, htx]]
      constructor
      · intro e he hne
        exact absurd he hne
      · intro h
        refine ⟨rfl, ?_⟩
        intro r pt hd hpt
        simp at hd
    · by_cases hpaid : asciiLower ((notifyCurrentStatus w cfg body).getD "") = "paid"
      · rw [notify_already_paid w cfg now body htx hpaid]
        constructor
        · intro e he hne
          exact absurd he hne
        · intro h
          refine ⟨rfl, ?_⟩
          intro r pt hd hpt
          simp at hd
      · rw [handleNotify_eq_main w cfg now body htx hpaid]
        have hmp := handleNotifyMain_points w cfg now body
        constructor
        · intro e he hne
          obtain ⟨h1, h2⟩ := hmp.1 e he hne
          refine ⟨by rw [h1, hcalc_pos h2], ?_⟩
          rw [h1]
          omega
        · intro h
          exact hmp.2 (hfl h)

/-- Witness for C10 at a concrete input (rate 100). -/
theorem c10_points_floor_witness :
    (0 : Rat) < sampleCfg.pointsRate
    ∧ ((∀ e ∈ (handleNotify samplePayWorld sampleCfg true "T1" sampleNotifyMembership).2.pointsLedger,
          e ∉ samplePayWorld.pointsLedger →
          e.points = Int.floor (notifyAmount samplePayWorld sampleCfg sampleNotifyMembership
              / sampleCfg.pointsRate)
          ∧ 1 ≤ e.points)
      ∧ (Int.floor (notifyAmount samplePayWorld sampleCfg sampleNotifyMembership
            / sampleCfg.pointsRate) ≤ 0 →
          (handleNotify samplePayWorld sampleCfg true "T1" sampleNotifyMembership).2.pointsLedger
            = samplePayWorld.pointsLedger
          ∧ ∀ r pt, (handleNotify samplePayWorld sampleCfg true "T1" sampleNotifyMembership).1
                = .done r →
              r.points_ledger = some pt → pt.awarded = false)) :=
  ⟨by norm_num [sampleCfg],
   c10_points_floor samplePayWorld sampleCfg true "T1" sampleNotifyMembership
     (by norm_num [sampleCfg])⟩

/-! ## Claims about `/v1/job/event` -/

theorem idemPut_jobs (w : World) (k : String) (v : IdemVal) (jid : String) :
    findJobByJobId (idemPut w k v) jid = findJobByJobId w jid := by
  unfold idemPut
  split <;> rfl

theorem idemGet_put (w : World) (k : String) (v : IdemVal) (h : w.hasKv = true) :
    idemGet (idemPut w k v) k = some v := by
  unfold idemGet idemPut
  simp [h]

/-- A keyed job lookup after the PATCH sees the patched fields. -/
theorem findJob_after_update (w : World) (jid : String) (rec : JobRec) (f2 : JobFields)
    (hfind : findJobByJobId w jid = some rec)
    (hjid : f2.job_id = rec.fields.job_id) :
    ∃ r2, findJobByJobId (updateJobRecord w rec.id f2) jid = some r2 ∧ r2.fields = f2 := by
  unfold findJobByJobId updateJobRecord at *
  have hp0 : (rec.fields.job_id == jid) = true :=
    @List.find?_some JobRec (fun r => r.fields.job_id == jid) rec w.jobs hfind
  dsimp only
  revert hfind
  induction w.jobs with
  | nil => intro hfind; simp at hfind
  | cons hd tl ih =>
    intro hfind
    by_cases hp : (hd.fields.job_id == jid) = true
    · rw [@List.find?_cons_of_pos JobRec (fun r => r.fields.job_id == jid) hd tl hp] at hfind
      have hhd : hd = rec := Option.some.inj hfind
      subst hhd
      refine ⟨{ hd with fields := f2 }, ?_, rfl⟩
      simp only [List.map_cons]
      rw [if_pos (by simp : (hd.id == hd.id) = true)]
      apply @List.find?_cons_of_pos JobRec (fun r => r.fields.job_id == jid)
      show (f2.job_id == jid) = true
      rw [hjid]
      exact hp
    · rw [@List.find?_cons_of_neg JobRec (fun r => r.fields.job_id == jid) hd tl hp] at hfind
      by_cases hid : (hd.id == rec.id) = true
      · refine ⟨{ hd with fields := f2 }, ?_, rfl⟩
        simp only [List.map_cons]
        rw [if_pos hid]
        apply @List.find?_cons_of_pos JobRec (fun r => r.fields.job_id == jid)
        show (f2.job_id == jid) = true
        rw [hjid]
        exact hp0
      · obtain ⟨r2, hfind2, hf2⟩ := ih hfind
        refine ⟨r2, ?_, hf2⟩
        simp only [List.map_cons]
        rw [if_neg hid]
        rw [@List.find?_cons_of_neg JobRec (fun r => r.fields.job_id == jid) hd _ hp]
        exact hfind2

/-- With valid fields, no idempotent replay and a found job, `/v1/job/event`
runs the with-job stage. -/
theorem jobEvent_route (w : World) (now : String) (body : EventReq) (rec : JobRec)
    (h1 : jsTrim body.job_id ≠ "")
    (h2 : normalizeEventName (jsTrim body.event) ≠ "")
    (hidem : evIdemLookup w body = none)
    (hfind : findJobByJobId w (jsTrim body.job_id) = some rec) :
    jobEvent w now true body = jobEventWithJob w now body rec := by
  simp [jobEvent, h1, h2, hidem, hfind]

theorem jobEventWithJob_gate (w : World) (now : String) (body : EventReq) (rec : JobRec)
    (hg : statusOf rec body = "work_started"
      ∧ hasFinalPaymentConfirmed (updatedEventsOf rec body now) = false) :
    jobEventWithJob w now body rec = ⟨.gateConflict, w⟩ := by
  unfold jobEventWithJob
  rw [if_pos hg]

theorem jobEventWithJob_pass (w : World) (now : String) (body : EventReq) (rec : JobRec)
    (hg : ¬(statusOf rec body = "work_started"
      ∧ hasFinalPaymentConfirmed (updatedEventsOf rec body now) = false)) :
    jobEventWithJob w now body rec = jobEventAfterGate w now body rec := by
  unfold jobEventWithJob
  rw [if_neg hg]

theorem jobEventAfterGate_ok (w : World) (now : String) (body : EventReq) (rec : JobRec)
    (rtv : Option String) (hrt : rtAttempt w rec body = .ok rtv) :
    jobEventAfterGate w now body rec
      = ⟨.success (evResultOf w rec body now rtv),
         if jsTrim body.idempotency_key ≠ "" then
           idemPut (updateJobRecord w rec.id (newJobFields rec body now))
             (jsTrim body.idempotency_key) ⟨true, evResultOf w rec body now rtv⟩
         else updateJobRecord w rec.id (newJobFields rec body now)⟩ := by
  unfold jobEventAfterGate
  rw [hrt]

theorem jobEventAfterGate_err (w : World) (now : String) (body : EventReq) (rec : JobRec)
    (e : HErr) (hrt : rtAttempt w rec body = .error e) :
    jobEventAfterGate w now body rec
      = ⟨.rtError e, updateJobRecord w rec.id (newJobFields rec body now)⟩ := by
  unfold jobEventAfterGate
  rw [hrt]

theorem idemPut_hasKv (w : World) (k : String) (v : IdemVal) :
    (idemPut w k v).hasKv = w.hasKv := by
  unfold idemPut
  split <;> rfl

/-- A call whose idempotency lookup hits replays the stored result. -/
theorem jobEvent_idem_hit (W : World) (now : String) (body : EventReq) (r : EvResult)
    (h1 : jsTrim body.job_id ≠ "")
    (h2 : normalizeEventName (jsTrim body.event) ≠ "")
    (hidem : evIdemLookup W body = some r) :
    jobEvent W now true body = ⟨.idemHit r, W⟩ := by
  simp [jobEvent, h1, h2, hidem]

/-- C1: on an existing job, if the resolved candidate status is
`work_started` and the updated event sequence (including the event just
appended) holds no `final_payment_confirmed` event, the call is rejected
with the 409 conflict and the stored world is unchanged; conversely, when
the updated sequence does hold one, the call (absent a realtime-call
failure) succeeds and persists the new status together with the appended
log. -/
theorem c1_hard_gate (w : World) (now : String) (body : EventReq) (rec : JobRec)
    (h1 : jsTrim body.job_id ≠ "")
    (h2 : normalizeEventName (jsTrim body.event) ≠ "")
    (hidem : evIdemLookup w body = none)
    (hfind : findJobByJobId w (jsTrim body.job_id) = some rec)
    (hst : statusOf rec body = "work_started") :
    (hasFinalPaymentConfirmed (updatedEventsOf rec body now) = false →
      jobEvent w now true body = ⟨.gateConflict, w⟩)
    ∧ (hasFinalPaymentConfirmed (updatedEventsOf rec body now) = true →
      ∀ rtv, rtAttempt w rec body = .ok rtv →
      ∃ r r2, (jobEvent w now true body).resp = .success r
        ∧ r.status = "work_started"
        ∧ findJobByJobId (jobEvent w now true body).world (jsTrim body.job_id) = some r2
        ∧ r2.fields.status = "work_started"
        ∧ r2.fields.events = updatedEventsOf rec body now) := by
  have hroute := jobEvent_route w now body rec h1 h2 hidem hfind
  constructor
  · intro hgate
    rw [hroute, jobEventWithJob_gate w now body rec ⟨hst, hgate⟩]
  · intro hgate rtv hrt
    rw [hroute, jobEventWithJob_pass w now body rec (by simp [hgate]),
        jobEventAfterGate_ok w now body rec rtv hrt]
    have hfj : ∀ W : World,
        (W = idemPut (updateJobRecord w rec.id (newJobFields rec body now))
            (jsTrim body.idempotency_key) ⟨true, evResultOf w rec body now rtv⟩
          ∨ W = updateJobRecord w rec.id (newJobFields rec body now)) →
        findJobByJobId W (jsTrim body.job_id)
          = findJobByJobId (updateJobRecord w rec.id (newJobFields rec body now))
              (jsTrim body.job_id) := by
      intro W hW
      cases hW with
      | inl h => rw [h, idemPut_jobs]
      | inr h => rw [h]
    obtain ⟨r2, hfind2, hf2⟩ := findJob_after_update w (jsTrim body.job_id) rec
      (newJobFields rec body now) hfind rfl
    refine ⟨evResultOf w rec body now rtv, r2, rfl, hst, ?_, ?_, ?_⟩
    · show findJobByJobId
        (if jsTrim body.idempotency_key ≠ "" then
          idemPut (updateJobRecord w rec.id (newJobFields rec body now))
            (jsTrim body.idempotency_key) ⟨true, evResultOf w rec body now rtv⟩
         else updateJobRecord w rec.id (newJobFields rec body now))
        (jsTrim body.job_id) = some r2
      rw [hfj _ (by split
                    · exact Or.inl rfl
                    · exact Or.inr rfl)]
      exact hfind2
    · rw [hf2]
      exact hst
    · rw [hf2]
      rfl

/-- Sample job record for events-worker witnesses. -/
def sampleJob : JobRec :=
  { id := "recJ", fields :=
    { job_id := "J1", cid := "C1", session_id := "S1", model_code := "M1",
      schedule_start_at := "D1", meeting_point_text := "lobby", city := "BKK",
      status := "confirmed", last_update_at := "T0",
      events := [{ ts := "T0", event := "created", event_raw := none,
                   actor := "admin", data := none }] } }

/-- Sample events-worker world: one job, KV bound, cooperating oracles. -/
def sampleEvWorld : World :=
  { jobs := [sampleJob], kv := [], hasKv := true,
    tgOracle := fun _ => { ok := true, info := "sent" },
    rtOracle := fun _ => .ok "room" }

/-- A `work_started` event request with no idempotency key. -/
def sampleWorkStartedBody : EventReq :=
  { job_id := "J1", event := "work_started", status := "", actor := "",
    data := none, idempotency_key := "" }

/-- Witness for C1: on the sample job (no `final_payment_confirmed` in its
log) a `work_started` event is rejected with the conflict and the world is
unchanged. -/
theorem c1_hard_gate_witness :
    (hasFinalPaymentConfirmed
        (updatedEventsOf sampleJob sampleWorkStartedBody "T1") = false →
      jobEvent sampleEvWorld "T1" true sampleWorkStartedBody = ⟨.gateConflict, sampleEvWorld⟩)
    ∧ (hasFinalPaymentConfirmed
        (updatedEventsOf sampleJob sampleWorkStartedBody "T1") = true →
      ∀ rtv, rtAttempt sampleEvWorld sampleJob sampleWorkStartedBody = .ok rtv →
      ∃ r r2, (jobEvent sampleEvWorld "T1" true sampleWorkStartedBody).resp = .success r
        ∧ r.status = "work_started"
        ∧ findJobByJobId (jobEvent sampleEvWorld "T1" true sampleWorkStartedBody).world
            (jsTrim sampleWorkStartedBody.job_id) = some r2
        ∧ r2.fields.status = "work_started"
        ∧ r2.fields.events = updatedEventsOf sampleJob sampleWorkStartedBody "T1") := by
  have h := c1_hard_gate sampleEvWorld "T1" sampleWorkStartedBody sampleJob
    (by decide) (by decide) rfl rfl (by decide)
  exact ⟨h.1, fun hgate rtv hrt => by
    have := h.2 hgate rtv hrt
    simpa using this⟩

/-- An `arrived` event request carrying an idempotency key. -/
def sampleIdemBody : EventReq :=
  { job_id := "J1", event := "arrived", status := "", actor := "",
    data := none, idempotency_key := "K1" }

/-- C2 counterexample: for an idempotent replay the response payload bytes
differ from the first call's — the replay wraps the stored result as
`{ok:true, idempotent:true, result}` (line 384) while the first call
serialized the result object alone (line 469).  The stored result itself is
returned unchanged. -/
theorem c2_counterexample :
    renderResp (jobEvent sampleEvWorld "T1" true sampleIdemBody).resp
      ≠ renderResp (jobEvent (jobEvent sampleEvWorld "T1" true sampleIdemBody).world
          "T2" true sampleIdemBody).resp
    ∧ ∃ r, (jobEvent sampleEvWorld "T1" true sampleIdemBody).resp = .success r
      ∧ (jobEvent (jobEvent sampleEvWorld "T1" true sampleIdemBody).world "T2" true
          sampleIdemBody).resp = .idemHit r := by
  refine ⟨by decide, ⟨_, rfl, by decide⟩⟩

/-- C2 (amended): a second `apply_event` call with the same
`idempotency_key` and body (KV binding present) does not re-execute lookup,
append, gate, persistence or side effects — it returns
`{ok:true, idempotent:true, result}` where `result` is the stored first
result, verbatim, and leaves the world untouched; exactly one event is
appended to the job's log across both calls. -/
theorem c2_idempotent_replay (w : World) (now1 now2 : String) (body : EventReq)
    (rec : JobRec) (rtv : Option String)
    (h1 : jsTrim body.job_id ≠ "")
    (h2 : normalizeEventName (jsTrim body.event) ≠ "")
    (hik : jsTrim body.idempotency_key ≠ "")
    (hkv : w.hasKv = true)
    (hidem : evIdemLookup w body = none)
    (hfind : findJobByJobId w (jsTrim body.job_id) = some rec)
    (hgate : ¬(statusOf rec body = "work_started"
      ∧ hasFinalPaymentConfirmed (updatedEventsOf rec body now1) = false))
    (hrt : rtAttempt w rec body = .ok rtv) :
    ∃ r, (jobEvent w now1 true body).resp = .success r
      ∧ jobEvent (jobEvent w now1 true body).world now2 true body
          = ⟨.idemHit r, (jobEvent w now1 true body).world⟩
      ∧ ∃ r2, findJobByJobId (jobEvent w now1 true body).world (jsTrim body.job_id) = some r2
          ∧ r2.fields.events = rec.fields.events ++ [newEventOf body now1] := by
  have hfirst : jobEvent w now1 true body
      = ⟨.success (evResultOf w rec body now1 rtv),
         idemPut (updateJobRecord w rec.id (newJobFields rec body now1))
           (jsTrim body.idempotency_key) ⟨true, evResultOf w rec body now1 rtv⟩⟩ := by
    rw [jobEvent_route w now1 body rec h1 h2 hidem hfind,
        jobEventWithJob_pass w now1 body rec hgate,
        jobEventAfterGate_ok w now1 body rec rtv hrt, if_pos hik]
  have hkv1 : (updateJobRecord w rec.id (newJobFields rec body now1)).hasKv = true := hkv
  have hidem2 : evIdemLookup (jobEvent w now1 true body).world body
      = some (evResultOf w rec body now1 rtv) := by
    rw [hfirst]
    simp [evIdemLookup, hik, idemGet_put _ _ _ hkv1]
  refine ⟨evResultOf w rec body now1 rtv, by rw [hfirst], ?_, ?_⟩
  · exact jobEvent_idem_hit _ now2 body _ h1 h2 hidem2
  · obtain ⟨r2, hfind2, hf2⟩ := findJob_after_update w (jsTrim body.job_id) rec
      (newJobFields rec body now1) hfind rfl
    refine ⟨r2, ?_, by rw [hf2]; rfl⟩
    rw [hfirst]
    show findJobByJobId (idemPut _ _ _) _ = some r2
    rw [idemPut_jobs]
    exact hfind2

/-- Witness for C2 at the concrete sample input. -/
theorem c2_idempotent_replay_witness :
    ∃ r, (jobEvent sampleEvWorld "T1" true sampleIdemBody).resp = .success r
      ∧ jobEvent (jobEvent sampleEvWorld "T1" true sampleIdemBody).world "T2" true sampleIdemBody
          = ⟨.idemHit r, (jobEvent sampleEvWorld "T1" true sampleIdemBody).world⟩
      ∧ ∃ r2, findJobByJobId (jobEvent sampleEvWorld "T1" true sampleIdemBody).world
            (jsTrim sampleIdemBody.job_id) = some r2
          ∧ r2.fields.events
              = sampleJob.fields.events ++ [newEventOf sampleIdemBody "T1"] :=
  c2_idempotent_replay sampleEvWorld "T1" "T2" sampleIdemBody sampleJob none
    (by decide) (by decide) (by decide) rfl rfl rfl (by decide) rfl

/-- Events world whose realtime collaborator fails. -/
def sampleRtFailWorld : World :=
  { jobs := [sampleJob], kv := [], hasKv := false,
    tgOracle := fun _ => { ok := true, info := "sent" },
    rtOracle := fun _ => .error { status := 503, error := "rt_open_failed" } }

/-- A t-15 live-chat event request. -/
def sampleT15Body : EventReq :=
  { job_id := "J1", event := "T-15min เปิด live chat", status := "", actor := "",
    data := none, idempotency_key := "" }

/-- C6 counterexample: when the realtime-room-open call fails on a
`t-15min_open_live_chat` event, the overall response becomes that failure
(the `HttpError` thrown by `rtRoomOpen` propagates) instead of a success
with a partial-failure entry — even though the state transition has already
been persisted (the log grew to 2 entries). -/
theorem c6_counterexample :
    (jobEvent sampleRtFailWorld "T1" true sampleT15Body).resp
      = .rtError { status := 503, error := "rt_open_failed" }
    ∧ (∀ r, (jobEvent sampleRtFailWorld "T1" true sampleT15Body).resp ≠ .success r)
    ∧ ∃ r2, findJobByJobId (jobEvent sampleRtFailWorld "T1" true sampleT15Body).world "J1"
        = some r2 ∧ r2.fields.events.length = 2 := by
  have hx : (jobEvent sampleRtFailWorld "T1" true sampleT15Body).resp
      = .rtError { status := 503, error := "rt_open_failed" } := by decide
  refine ⟨hx, ?_, ⟨_, rfl, rfl⟩⟩
  intro r h
  rw [hx] at h
  exact EvResp.noConfusion h

/-- C6 (amended): on the post-gate path, every telegram side effect is
dispatched with its outcome captured per-effect in `side_effects` — the
response is a success for every telegram-oracle behaviour, failures
included; the realtime-room-open call is the exception: its failure aborts
the response with the thrown error (after the state was persisted). -/
theorem c6_side_effects (w : World) (now : String) (body : EventReq) (rec : JobRec)
    (h1 : jsTrim body.job_id ≠ "")
    (h2 : normalizeEventName (jsTrim body.event) ≠ "")
    (hidem : evIdemLookup w body = none)
    (hfind : findJobByJobId w (jsTrim body.job_id) = some rec)
    (hgate : ¬(statusOf rec body = "work_started"
      ∧ hasFinalPaymentConfirmed (updatedEventsOf rec body now) = false)) :
    (∀ rtv, rtAttempt w rec body = .ok rtv →
      (jobEvent w now true body).resp = .success
        { job_id := jsTrim body.job_id
          status := statusOf rec body
          updated_at := now
          airtable := some rec.id
          rt := rtv
          side_effects := (dispatchPayloads (normalizeEventName (jsTrim body.event))
            (statusOf rec body) rec.fields now).map
            (fun tp => ({ type := tp.1, res := w.tgOracle tp.2 } : SideEffect)) })
    ∧ (∀ e, rtAttempt w rec body = .error e →
      (jobEvent w now true body).resp = .rtError e
      ∧ ∃ r2, findJobByJobId (jobEvent w now true body).world (jsTrim body.job_id) = some r2
          ∧ r2.fields.status = statusOf rec body
          ∧ r2.fields.events = updatedEventsOf rec body now) := by
  have hroute := jobEvent_route w now body rec h1 h2 hidem hfind
  constructor
  · intro rtv hrt
    rw [hroute, jobEventWithJob_pass w now body rec hgate,
        jobEventAfterGate_ok w now body rec rtv hrt]
    show EvResp.success (evResultOf w rec body now rtv) = _
    rfl
  · intro e hrt
    rw [hroute, jobEventWithJob_pass w now body rec hgate,
        jobEventAfterGate_err w now body rec e hrt]
    obtain ⟨r2, hfind2, hf2⟩ := findJob_after_update w (jsTrim body.job_id) rec
      (newJobFields rec body now) hfind rfl
    exact ⟨rfl, r2, hfind2, by rw [hf2]; rfl, by rw [hf2]; rfl⟩

/-- Witness for C6 at the sample input (cooperating realtime worker). -/
theorem c6_side_effects_witness :
    (jobEvent sampleEvWorld "T1" true sampleIdemBody).resp = .success
      { job_id := jsTrim sampleIdemBody.job_id
        status := statusOf sampleJob sampleIdemBody
        updated_at := "T1"
        airtable := some sampleJob.id
        rt := none
        side_effects := (dispatchPayloads
          (normalizeEventName (jsTrim sampleIdemBody.event))
          (statusOf sampleJob sampleIdemBody) sampleJob.fields "T1").map
          (fun tp => ({ type := tp.1, res := sampleEvWorld.tgOracle tp.2 } : SideEffect)) } :=
  (c6_side_effects sampleEvWorld "T1" sampleIdemBody sampleJob
    (by decide) (by decide) rfl rfl (by decide)).1 none rfl
